import Mathlib

set_option maxRecDepth 8000
set_option linter.unusedVariables false

/-!
Shallow embedding of the Vault recurring-job subsystem: the four jobs that
renew and revoke Vault credential-store tokens and dynamic credentials
(TokenRenewalJob, TokenRevocationJob, CredentialRenewalJob,
CredentialRevocationJob), together with the pure username/password
extraction helper of the userpassword package.

External collaborators (database reader/writer, kms, the Vault API client,
the logger) are modelled as oracles: a per-item environment records the
outcome of each collaborator call the source makes for that item, and a
per-run environment records the context-cancellation observations and the
outcome of the batch selection query.  The job functions are translated
statement by statement from the source; their observable behavior (issued
writes, emitted log events, counter updates, returned error) is collected
in explicit output structures.
-/

/-- A vault api ResponseError with its HTTP status code, or a generic
(non-response) error from the backend client. -/
inductive vault.ApiErr : Type
  | resp (statusCode : Nat)
  | generic
  deriving Repr, DecidableEq

/-- Error codes of the internal errors package used by this file. -/
inductive vault.ErrCode : Type
  | InvalidParameter
  | JobAlreadyRunning
  | Unknown
  deriving Repr, DecidableEq

/-- The collaborator failure that an errors.Wrap call wraps. -/
inductive vault.Cause : Type
  | ctxErr      -- a non-nil ctx.Err(): the context's cancellation cause
  | searchErr   -- db.Reader.SearchWhere failure
  | queryErr    -- db.Reader.Query failure
  | scanErr     -- db.Reader.ScanRows failure
  | kmsErr      -- kms.GetWrapper failure
  | decryptErr  -- privateStore / privateCredential decrypt failure
  | clientErr   -- vault client construction failure
  | api (e : vault.ApiErr)  -- a vault API call failure
  | execErr     -- db.Writer.Exec failure
  | ttlErr      -- TokenTTL extraction failure
  deriving Repr, DecidableEq

/-- Errors produced by the job subsystem: errors.New with a code, or
errors.Wrap around a collaborator failure or another error. -/
inductive vault.Err : Type
  | new (code : vault.ErrCode) (op msg : String)
  | wrapCause (c : vault.Cause) (op : String)
  | wrap (inner : vault.Err) (op : String)
  deriving Repr, DecidableEq

/-- A single-statement conditional update issued through db.Writer.Exec:
the status or expiration update of a token or credential. -/
inductive vault.Write : Type
  | tokenStatus (status : String)       -- token.updateStatusQuery(status)
  | tokenExpiration (expiration : Int)  -- token.updateExpirationQuery()
  | credStatus (status : String)        -- cred.updateStatusQuery(status)
  | credExpiration (expiration : Int)   -- cred.updateExpirationQuery()
  deriving Repr, DecidableEq

/-- Events emitted through the hclog.Logger. -/
inductive vault.LogEvent : Type
  | errorLog (msg id : String) (e : vault.Err)  -- logger.Error in a Run loop
  | infoLog (msg id : String)                   -- logger.Info in renewToken
  deriving Repr, DecidableEq

/-- time.Second in nanoseconds (Go time.Duration is an int64 count of
nanoseconds). -/
def vault.timeSecond : Int := 1000000000

/-- time.Minute in nanoseconds. -/
def vault.timeMinute : Int := 60 * vault.timeSecond

/-- defaultNextRunIn = 5 * time.Minute. -/
def vault.defaultNextRunIn : Int := 5 * vault.timeMinute

/-- renewalWindow = 10 * time.Minute. -/
def vault.renewalWindow : Int := 10 * vault.timeMinute

/-- Modelled from the spec: the token status values of section 3
(`current | maintaining | expired | revoked`); the constants CurrentToken,
MaintainingToken, ExpiredToken and RevokedToken are declared in a part of
the vault package outside the provided sources. -/
def vault.CurrentToken : String := "current"

/-- Modelled from the spec: see CurrentToken. -/
def vault.MaintainingToken : String := "maintaining"

/-- Modelled from the spec: see CurrentToken. -/
def vault.ExpiredToken : String := "expired"

/-- Modelled from the spec: see CurrentToken. -/
def vault.RevokedToken : String := "revoked"

/-- Modelled from the spec: the credential status values of section 3
(`active | revoke | expired | revoked`); the constants ActiveCredential,
RevokeCredential, ExpiredCredential and RevokedCredential are declared in
a part of the vault package outside the provided sources. -/
def vault.ActiveCredential : String := "active"

/-- Modelled from the spec: see ActiveCredential. -/
def vault.RevokeCredential : String := "revoke"

/-- Modelled from the spec: see ActiveCredential. -/
def vault.ExpiredCredential : String := "expired"

/-- Modelled from the spec: see ActiveCredential. -/
def vault.RevokedCredential : String := "revoked"

/-- net/http StatusForbidden. -/
def http.StatusForbidden : Nat := 403

/-- net/http StatusBadRequest. -/
def http.StatusBadRequest : Nat := 400

/-- The test `errors.As(err, respErr)` succeeding with
`respErr.StatusCode == http.StatusForbidden`. -/
def vault.isForbidden : vault.ApiErr → Bool
  | .resp c => c == http.StatusForbidden
  | .generic => false

/-- The test `errors.As(err, respErr)` succeeding with
`respErr.StatusCode == http.StatusBadRequest`. -/
def vault.isBadRequest : vault.ApiErr → Bool
  | .resp c => c == http.StatusBadRequest
  | .generic => false

/-- go.uber.org/atomic Bool.CAS(old, new): the swap is performed iff the
current value equals old; returns (whether the swap was performed, the
resulting current value). -/
def vault.atomicCAS (current old new : Bool) : Bool × Bool :=
  if current == old then (true, new) else (false, current)

/-- The observable outcome of processing one item: the writes issued
through db.Writer.Exec, the log events emitted, and the returned error. -/
structure vault.ItemOut : Type where
  writes : List vault.Write
  logs : List vault.LogEvent
  err : Option vault.Err
  deriving Repr, DecidableEq

/-- privateStore: the per-item row selected by the token jobs (only the
fields this subsystem reads are modelled). -/
structure vault.privateStore : Type where
  StoreId : String
  ScopeId : String
  TokenStatus : String
  deriving Repr, DecidableEq

/-- privateCredential: the per-item row selected by the credential jobs
(only the fields this subsystem reads are modelled; timestamps are
nanosecond counts). -/
structure vault.privateCredential : Type where
  PublicId : String
  ScopeId : String
  ExternalId : String
  ExpirationTime : Int
  LastRenewalTime : Int
  deriving Repr, DecidableEq

/-- The response of a successful renew-self call: TokenTTL() extracts the
new duration or fails. -/
structure vault.RenewedToken : Type where
  tokenTTL : Except Unit Int

/-- The response of a successful renew-lease call: LeaseDuration is a
count of seconds. -/
structure vault.RenewedLease : Type where
  LeaseDuration : Int

/-- Oracle for the collaborator calls TokenRenewalJob.renewToken makes for
one item, in source order: kms.GetWrapper, s.decrypt, s.token(),
s.client(), vc.renewToken(), and the Exec outcomes (affected-row count or
failure) of the status update and of the expiration update. -/
structure vault.TokenRenewEnv : Type where
  getWrapper : Except Unit Unit
  decrypt : Except Unit Unit
  token : Option Unit
  client : Except Unit Unit
  renewToken : Except vault.ApiErr vault.RenewedToken
  execStatus : Except Unit Int
  execExpiration : Except Unit Int

/-- TokenRenewalJob.renewToken: renew one credential store's Vault token.
A renew-self failure with a forbidden response marks the token expired
(informational log when a current token is downgraded); any Exec outcome
other than exactly one affected row is an error. -/
def vault.TokenRenewalJob.renewToken (env : vault.TokenRenewEnv) (s : vault.privateStore) :
    vault.ItemOut :=
  let op := "vault.(TokenRenewalJob).renewToken"
  match env.getWrapper with
  | .error _ => ⟨[], [], some (.wrapCause .kmsErr op)⟩
  | .ok _ =>
  match env.decrypt with
  | .error _ => ⟨[], [], some (.wrapCause .decryptErr op)⟩
  | .ok _ =>
  match env.token with
  | none => ⟨[], [], none⟩  -- Store has no token to renew
  | some _ =>
  match env.client with
  | .error _ => ⟨[], [], some (.wrapCause .clientErr op)⟩
  | .ok _ =>
  match env.renewToken with
  | .error e =>
    if vault.isForbidden e then
      -- Vault returned a 403 on renew self: set status to "expired".
      match env.execStatus with
      | .error _ => ⟨[vault.Write.tokenStatus vault.ExpiredToken], [], some (.wrapCause .execErr op)⟩
      | .ok numRows =>
        if numRows ≠ 1 then
          ⟨[vault.Write.tokenStatus vault.ExpiredToken], [],
           some (.new .Unknown op "token expired but failed to update repo")⟩
        else
          ⟨[vault.Write.tokenStatus vault.ExpiredToken],
           if s.TokenStatus = vault.CurrentToken then
             [vault.LogEvent.infoLog "Vault credential store current token has expired" s.StoreId]
           else [],
           none⟩
    else ⟨[], [], some (.wrapCause (.api e) op)⟩
  | .ok renewedToken =>
    match renewedToken.tokenTTL with
    | .error _ => ⟨[], [], some (.wrapCause .ttlErr op)⟩
    | .ok tokenExpires =>
      match env.execExpiration with
      | .error _ => ⟨[vault.Write.tokenExpiration tokenExpires], [], some (.wrapCause .execErr op)⟩
      | .ok numRows =>
        if numRows ≠ 1 then
          ⟨[vault.Write.tokenExpiration tokenExpires], [],
           some (.new .Unknown op "token renewed but failed to update repo")⟩
        else ⟨[vault.Write.tokenExpiration tokenExpires], [], none⟩

/-- Oracle for the collaborator calls TokenRevocationJob.revokeToken makes
for one item, in source order. -/
structure vault.TokenRevokeEnv : Type where
  getWrapper : Except Unit Unit
  decrypt : Except Unit Unit
  token : Option Unit
  client : Except Unit Unit
  revokeToken : Option vault.ApiErr
  execStatus : Except Unit Int

/-- TokenRevocationJob.revokeToken: revoke one credential store's Vault
token.  A revoke-self failure with a forbidden response is clobbered (the
token is already gone backend-side) and the status is set to "revoked". -/
def vault.TokenRevocationJob.revokeToken (env : vault.TokenRevokeEnv) (s : vault.privateStore) :
    vault.ItemOut :=
  let op := "vault.(TokenRevocationJob).revokeToken"
  match env.getWrapper with
  | .error _ => ⟨[], [], some (.wrapCause .kmsErr op)⟩
  | .ok _ =>
  match env.decrypt with
  | .error _ => ⟨[], [], some (.wrapCause .decryptErr op)⟩
  | .ok _ =>
  match env.token with
  | none => ⟨[], [], none⟩  -- Store has no token to revoke
  | some _ =>
  match env.client with
  | .error _ => ⟨[], [], some (.wrapCause .clientErr op)⟩
  | .ok _ =>
  let err : Option vault.ApiErr :=
    match env.revokeToken with
    | some e => if vault.isForbidden e then none else some e
    | none => none
  match err with
  | some e => ⟨[], [], some (.wrapCause (.api e) op)⟩
  | none =>
    match env.execStatus with
    | .error _ => ⟨[vault.Write.tokenStatus vault.RevokedToken], [], some (.wrapCause .execErr op)⟩
    | .ok numRows =>
      if numRows ≠ 1 then
        ⟨[vault.Write.tokenStatus vault.RevokedToken], [],
         some (.new .Unknown op "token revoked but failed to update repo")⟩
      else ⟨[vault.Write.tokenStatus vault.RevokedToken], [], none⟩

/-- Oracle for the collaborator calls CredentialRenewalJob.renewCred makes
for one item; renewLease is keyed by the arguments the source passes
(external lease id and requested duration). -/
structure vault.CredRenewEnv : Type where
  getWrapper : Except Unit Unit
  decrypt : Except Unit Unit
  client : Except Unit Unit
  renewLease : String → Int → Except vault.ApiErr vault.RenewedLease
  execStatus : Except Unit Int
  execExpiration : Except Unit Int

/-- CredentialRenewalJob.renewCred: renew one credential's lease.  The
requested duration is expiration minus last renewal; a bad-request
response marks the credential expired; success writes the new expiration
(the backend-granted LeaseDuration in seconds). -/
def vault.CredentialRenewalJob.renewCred (env : vault.CredRenewEnv) (c : vault.privateCredential) :
    vault.ItemOut :=
  let op := "vault.(CredentialRenewalJob).renewCred"
  match env.getWrapper with
  | .error _ => ⟨[], [], some (.wrapCause .kmsErr op)⟩
  | .ok _ =>
  match env.decrypt with
  | .error _ => ⟨[], [], some (.wrapCause .decryptErr op)⟩
  | .ok _ =>
  match env.client with
  | .error _ => ⟨[], [], some (.wrapCause .clientErr op)⟩
  | .ok _ =>
  let leaseDuration := c.ExpirationTime - c.LastRenewalTime
  match env.renewLease c.ExternalId leaseDuration with
  | .error e =>
    if vault.isBadRequest e then
      -- Vault returned a 400 on renew lease: set status to "expired".
      match env.execStatus with
      | .error _ => ⟨[vault.Write.credStatus vault.ExpiredCredential], [], some (.wrapCause .execErr op)⟩
      | .ok numRows =>
        if numRows ≠ 1 then
          ⟨[vault.Write.credStatus vault.ExpiredCredential], [],
           some (.new .Unknown op "credential expired but failed to update repo")⟩
        else ⟨[vault.Write.credStatus vault.ExpiredCredential], [], none⟩
    else ⟨[], [], some (.wrapCause (.api e) op)⟩
  | .ok renewedCred =>
    match env.execExpiration with
    | .error _ =>
      ⟨[vault.Write.credExpiration (renewedCred.LeaseDuration * vault.timeSecond)], [],
       some (.wrapCause .execErr op)⟩
    | .ok numRows =>
      if numRows ≠ 1 then
        ⟨[vault.Write.credExpiration (renewedCred.LeaseDuration * vault.timeSecond)], [],
         some (.new .Unknown op "credential renewed but failed to update repo")⟩
      else ⟨[vault.Write.credExpiration (renewedCred.LeaseDuration * vault.timeSecond)], [], none⟩

/-- Oracle for the collaborator calls CredentialRevocationJob.revokeCred
makes for one item. -/
structure vault.CredRevokeEnv : Type where
  getWrapper : Except Unit Unit
  decrypt : Except Unit Unit
  client : Except Unit Unit
  revokeLease : String → Option vault.ApiErr
  execStatus : Except Unit Int

/-- CredentialRevocationJob.revokeCred: revoke one credential's lease.
Any revoke-lease failure is an error (no forbidden special case); success
writes status "revoked".  The op string is the (mislabelled) constant of
the source. -/
def vault.CredentialRevocationJob.revokeCred (env : vault.CredRevokeEnv) (c : vault.privateCredential) :
    vault.ItemOut :=
  let op := "vault.(CredentialRenewalJob).revokeCred"
  match env.getWrapper with
  | .error _ => ⟨[], [], some (.wrapCause .kmsErr op)⟩
  | .ok _ =>
  match env.decrypt with
  | .error _ => ⟨[], [], some (.wrapCause .decryptErr op)⟩
  | .ok _ =>
  match env.client with
  | .error _ => ⟨[], [], some (.wrapCause .clientErr op)⟩
  | .ok _ =>
  match env.revokeLease c.ExternalId with
  | some e => ⟨[], [], some (.wrapCause (.api e) op)⟩
  | none =>
    match env.execStatus with
    | .error _ => ⟨[vault.Write.credStatus vault.RevokedCredential], [], some (.wrapCause .execErr op)⟩
    | .ok numRows =>
      if numRows ≠ 1 then
        ⟨[vault.Write.credStatus vault.RevokedCredential], [],
         some (.new .Unknown op "credential revoked but failed to update repo")⟩
      else ⟨[vault.Write.credStatus vault.RevokedCredential], [], none⟩

/-- scheduler.JobStatus as read by the external scheduler. -/
structure scheduler.JobStatus : Type where
  Completed : Nat
  Total : Nat
  deriving Repr, DecidableEq

/-- TokenRenewalJob: the long-lived job instance state (the collaborator
handles reader/writer/kms/logger and the batch limit are oracle-ized). -/
structure vault.TokenRenewalJob : Type where
  running : Bool
  numTokens : Nat
  numProcessed : Nat
  deriving Repr, DecidableEq

/-- TokenRevocationJob instance state. -/
structure vault.TokenRevocationJob : Type where
  running : Bool
  numTokens : Nat
  numProcessed : Nat
  deriving Repr, DecidableEq

/-- CredentialRenewalJob instance state. -/
structure vault.CredentialRenewalJob : Type where
  running : Bool
  numCreds : Nat
  numProcessed : Nat
  deriving Repr, DecidableEq

/-- CredentialRevocationJob instance state. -/
structure vault.CredentialRevocationJob : Type where
  running : Bool
  numCreds : Nat
  numProcessed : Nat
  deriving Repr, DecidableEq

/-- TokenRenewalJob.Status. -/
def vault.TokenRenewalJob.Status (r : vault.TokenRenewalJob) : scheduler.JobStatus :=
  ⟨r.numProcessed, r.numTokens⟩

/-- TokenRevocationJob.Status. -/
def vault.TokenRevocationJob.Status (r : vault.TokenRevocationJob) : scheduler.JobStatus :=
  ⟨r.numProcessed, r.numTokens⟩

/-- CredentialRenewalJob.Status. -/
def vault.CredentialRenewalJob.Status (r : vault.CredentialRenewalJob) : scheduler.JobStatus :=
  ⟨r.numProcessed, r.numCreds⟩

/-- CredentialRevocationJob.Status. -/
def vault.CredentialRevocationJob.Status (r : vault.CredentialRevocationJob) : scheduler.JobStatus :=
  ⟨r.numProcessed, r.numCreds⟩

/-- Cumulative output of the per-item loop of a Run. -/
structure vault.LoopOut : Type where
  processed : Nat
  writes : List vault.Write
  logs : List vault.LogEvent
  snapshots : List (Nat × Nat)
  err : Option vault.Err

/-- The per-item loop shared (textually) by every job's Run: before each
item ctx.Err() is consulted (observation index i; index 0 was consumed by
the pre-query check); a failing item is logged through mkLog and the loop
continues; numProcessed is incremented after each item regardless of
outcome.  snapshots records the (numProcessed, total) counter pair after
each increment, i.e. every intermediate Status value during the loop. -/
def vault.runLoop {Item Env : Type} (process : Env → Item → vault.ItemOut)
    (mkLog : Item → vault.Err → vault.LogEvent) (op : String)
    (ctxCanceled : Nat → Bool) (total : Nat) :
    List (Item × Env) → Nat → Nat → vault.LoopOut
  | [], _, p => ⟨p, [], [], [], none⟩
  | (it, env) :: rest, i, p =>
    if ctxCanceled i then ⟨p, [], [], [], some (.wrapCause .ctxErr op)⟩
    else
      let o := process env it
      let errLogs : List vault.LogEvent :=
        match o.err with
        | some e => [mkLog it e]
        | none => []
      let restOut := vault.runLoop process mkLog op ctxCanceled total rest (i + 1) (p + 1)
      ⟨restOut.processed, o.writes ++ restOut.writes, (o.logs ++ errLogs) ++ restOut.logs,
       (p + 1, total) :: restOut.snapshots, restOut.err⟩

/-- Observable output of one Run invocation: whether the batch selection
query was issued, the counter pair assigned before the loop (when
reached), the issued writes, emitted logs, intermediate counter
snapshots, and the returned error (none = nil). -/
structure vault.RunOut : Type where
  searched : Bool
  resetTo : Option (Nat × Nat)
  writes : List vault.Write
  logs : List vault.LogEvent
  snapshots : List (Nat × Nat)
  result : Option vault.Err

/-- The log event of the token renewal Run loop. -/
def vault.tokenRenewalLog (s : vault.privateStore) (e : vault.Err) : vault.LogEvent :=
  .errorLog "error renewing token" s.StoreId e

/-- The log event of the token revocation Run loop. -/
def vault.tokenRevocationLog (s : vault.privateStore) (e : vault.Err) : vault.LogEvent :=
  .errorLog "error revoking token" s.StoreId e

/-- The log event of the credential renewal Run loop. -/
def vault.credRenewalLog (c : vault.privateCredential) (e : vault.Err) : vault.LogEvent :=
  .errorLog "error renewing credential" c.PublicId e

/-- The log event of the credential revocation Run loop. -/
def vault.credRevocationLog (c : vault.privateCredential) (e : vault.Err) : vault.LogEvent :=
  .errorLog "error revoking credential" c.PublicId e

/-- Per-run oracle for TokenRenewalJob.Run: the successive ctx.Err()
observations (true = non-nil, observation 0 is the pre-query check) and
the outcome of the SearchWhere batch selection, each selected store
carrying the oracle for its own processing. -/
structure vault.TokenRenewRunEnv : Type where
  ctxCanceled : Nat → Bool
  search : Except Unit (List (vault.privateStore × vault.TokenRenewEnv))

/-- TokenRenewalJob.Run, translated statement by statement: the
CAS(Load(), true) guard, the deferred running.Store(false), the pre-query
context check, the batch selection, the counter reset, and the per-item
loop. -/
def vault.TokenRenewalJob.Run (r : vault.TokenRenewalJob) (env : vault.TokenRenewRunEnv) :
    vault.TokenRenewalJob × vault.RunOut :=
  let op := "vault.(TokenRenewalJob).Run"
  let cas := vault.atomicCAS r.running r.running true
  if !cas.1 then
    (r, ⟨false, none, [], [], [], some (.new .JobAlreadyRunning op "job already running")⟩)
  else
    let r1 : vault.TokenRenewalJob := { r with running := cas.2 }
    if env.ctxCanceled 0 then
      ({ r1 with running := false }, ⟨false, none, [], [], [], some (.wrapCause .ctxErr op)⟩)
    else
      match env.search with
      | .error _ =>
        ({ r1 with running := false }, ⟨true, none, [], [], [], some (.wrapCause .searchErr op)⟩)
      | .ok ps =>
        let r2 : vault.TokenRenewalJob := { r1 with numProcessed := 0, numTokens := ps.length }
        let lo := vault.runLoop vault.TokenRenewalJob.renewToken vault.tokenRenewalLog op
          env.ctxCanceled ps.length ps 1 0
        ({ r2 with numProcessed := lo.processed, running := false },
         ⟨true, some (0, ps.length), lo.writes, lo.logs, lo.snapshots, lo.err⟩)

/-- Per-run oracle for TokenRevocationJob.Run. -/
structure vault.TokenRevokeRunEnv : Type where
  ctxCanceled : Nat → Bool
  search : Except Unit (List (vault.privateStore × vault.TokenRevokeEnv))

/-- TokenRevocationJob.Run. -/
def vault.TokenRevocationJob.Run (r : vault.TokenRevocationJob) (env : vault.TokenRevokeRunEnv) :
    vault.TokenRevocationJob × vault.RunOut :=
  let op := "vault.(TokenRevocationJob).Run"
  let cas := vault.atomicCAS r.running r.running true
  if !cas.1 then
    (r, ⟨false, none, [], [], [], some (.new .JobAlreadyRunning op "job already running")⟩)
  else
    let r1 : vault.TokenRevocationJob := { r with running := cas.2 }
    if env.ctxCanceled 0 then
      ({ r1 with running := false }, ⟨false, none, [], [], [], some (.wrapCause .ctxErr op)⟩)
    else
      match env.search with
      | .error _ =>
        ({ r1 with running := false }, ⟨true, none, [], [], [], some (.wrapCause .searchErr op)⟩)
      | .ok ps =>
        let r2 : vault.TokenRevocationJob := { r1 with numProcessed := 0, numTokens := ps.length }
        let lo := vault.runLoop vault.TokenRevocationJob.revokeToken vault.tokenRevocationLog op
          env.ctxCanceled ps.length ps 1 0
        ({ r2 with numProcessed := lo.processed, running := false },
         ⟨true, some (0, ps.length), lo.writes, lo.logs, lo.snapshots, lo.err⟩)

/-- Per-run oracle for CredentialRenewalJob.Run. -/
structure vault.CredRenewRunEnv : Type where
  ctxCanceled : Nat → Bool
  search : Except Unit (List (vault.privateCredential × vault.CredRenewEnv))

/-- CredentialRenewalJob.Run. -/
def vault.CredentialRenewalJob.Run (r : vault.CredentialRenewalJob) (env : vault.CredRenewRunEnv) :
    vault.CredentialRenewalJob × vault.RunOut :=
  let op := "vault.(CredentialRenewalJob).Run"
  let cas := vault.atomicCAS r.running r.running true
  if !cas.1 then
    (r, ⟨false, none, [], [], [], some (.new .JobAlreadyRunning op "job already running")⟩)
  else
    let r1 : vault.CredentialRenewalJob := { r with running := cas.2 }
    if env.ctxCanceled 0 then
      ({ r1 with running := false }, ⟨false, none, [], [], [], some (.wrapCause .ctxErr op)⟩)
    else
      match env.search with
      | .error _ =>
        ({ r1 with running := false }, ⟨true, none, [], [], [], some (.wrapCause .searchErr op)⟩)
      | .ok creds =>
        let r2 : vault.CredentialRenewalJob := { r1 with numProcessed := 0, numCreds := creds.length }
        let lo := vault.runLoop vault.CredentialRenewalJob.renewCred vault.credRenewalLog op
          env.ctxCanceled creds.length creds 1 0
        ({ r2 with numProcessed := lo.processed, running := false },
         ⟨true, some (0, creds.length), lo.writes, lo.logs, lo.snapshots, lo.err⟩)

/-- Per-run oracle for CredentialRevocationJob.Run. -/
structure vault.CredRevokeRunEnv : Type where
  ctxCanceled : Nat → Bool
  search : Except Unit (List (vault.privateCredential × vault.CredRevokeEnv))

/-- CredentialRevocationJob.Run. -/
def vault.CredentialRevocationJob.Run (r : vault.CredentialRevocationJob) (env : vault.CredRevokeRunEnv) :
    vault.CredentialRevocationJob × vault.RunOut :=
  let op := "vault.(CredentialRevocationJob).Run"
  let cas := vault.atomicCAS r.running r.running true
  if !cas.1 then
    (r, ⟨false, none, [], [], [], some (.new .JobAlreadyRunning op "job already running")⟩)
  else
    let r1 : vault.CredentialRevocationJob := { r with running := cas.2 }
    if env.ctxCanceled 0 then
      ({ r1 with running := false }, ⟨false, none, [], [], [], some (.wrapCause .ctxErr op)⟩)
    else
      match env.search with
      | .error _ =>
        ({ r1 with running := false }, ⟨true, none, [], [], [], some (.wrapCause .searchErr op)⟩)
      | .ok creds =>
        let r2 : vault.CredentialRevocationJob := { r1 with numProcessed := 0, numCreds := creds.length }
        let lo := vault.runLoop vault.CredentialRevocationJob.revokeCred vault.credRevocationLog op
          env.ctxCanceled creds.length creds 1 0
        ({ r2 with numProcessed := lo.processed, running := false },
         ⟨true, some (0, creds.length), lo.writes, lo.logs, lo.snapshots, lo.err⟩)

/-- One scanned row of the next-renewal query: the minimum time until
renewal, a value the query computes in seconds. -/
structure vault.NextRenewal : Type where
  RenewalIn : Int
  deriving Repr, DecidableEq

/-- Outcome of the next-renewal query as consumed through db.Reader.Query
and ScanRows: the query itself can fail, and each row scan can fail. -/
abbrev vault.QueryResult := Except Unit (List (Except Unit vault.NextRenewal))

/-- nextRenewal: shared helper of the two renewal jobs' NextRunIn (the
source dispatches on the concrete job type only to pick the query and the
reader; the chosen query's outcome is the oracle argument here).  Only
the first row is ever examined; a negative time-until-renewal yields 0
(run immediately); no rows yields the 5-minute default. -/
def vault.nextRenewal (queryResult : vault.QueryResult) : Int × Option vault.Err :=
  let op := "vault.nextRenewal"
  match queryResult with
  | .error _ => (0, some (.wrapCause .queryErr op))
  | .ok rows =>
    match rows with
    | [] => (vault.defaultNextRunIn, none)
    | row :: _ =>
      match row with
      | .error _ => (0, some (.wrapCause .scanErr op))
      | .ok n =>
        if n.RenewalIn < 0 then (0, none)
        else (n.RenewalIn * vault.timeSecond, none)

/-- TokenRenewalJob.NextRunIn: on a nextRenewal error the 5-minute default
is returned together with the wrapped error. -/
def vault.TokenRenewalJob.NextRunIn (queryResult : vault.QueryResult) : Int × Option vault.Err :=
  let op := "vault.(TokenRenewalJob).NextRunIn"
  match vault.nextRenewal queryResult with
  | (_, some e) => (vault.defaultNextRunIn, some (.wrap e op))
  | (next, none) => (next, none)

/-- CredentialRenewalJob.NextRunIn. -/
def vault.CredentialRenewalJob.NextRunIn (queryResult : vault.QueryResult) : Int × Option vault.Err :=
  let op := "vault.(CredentialRenewalJob).NextRunIn"
  match vault.nextRenewal queryResult with
  | (_, some e) => (vault.defaultNextRunIn, some (.wrap e op))
  | (next, none) => (next, none)

/-- TokenRevocationJob.NextRunIn: a fixed 5-minute fallback. -/
def vault.TokenRevocationJob.NextRunIn : Int × Option vault.Err :=
  (vault.defaultNextRunIn, none)

/-- CredentialRevocationJob.NextRunIn: a fixed 5-minute fallback. -/
def vault.CredentialRevocationJob.NextRunIn : Int × Option vault.Err :=
  (vault.defaultNextRunIn, none)

/-- A dynamic Go value as stored in a map of string to empty-interface:
a string, a nested map, or any other dynamic type. -/
inductive userpassword.GoValue : Type
  | str (s : String)
  | obj (m : List (String × userpassword.GoValue))
  | other

/-- The data map type of the userpassword package (Go map iteration
order does not affect any result modelled here, so an entry list is a
faithful model; keys are unique in a Go map). -/
abbrev userpassword.data := List (String × userpassword.GoValue)

/-- defaultUserPass: look the two attributes up directly in the data map;
an absent attribute or a non-string value leaves the zero value "". -/
def userpassword.defaultUserPass (sd : userpassword.data) (usernameAttr passwordAttr : String) :
    String × String :=
  let username : String :=
    match sd.lookup usernameAttr with
    | some (.str u) => u
    | _ => ""
  let password : String :=
    match sd.lookup passwordAttr with
    | some (.str p) => p
    | _ => ""
  (username, password)

/-- The top-level validation loop of kv2UserPass: walk the entries of the
map remembering the data and metadata submaps; any other top-level key,
or a data/metadata value that is not a map, makes the source return the
zero values immediately (modelled as none). -/
def userpassword.kv2Fields : userpassword.data → Option userpassword.data →
    Option userpassword.data → Option (Option userpassword.data × Option userpassword.data)
  | [], dat, md => some (dat, md)
  | (k, v) :: rest, dat, md =>
    if k = "data" then
      match v with
      | .obj m => userpassword.kv2Fields rest (some m) md
      | _ => none
    else if k = "metadata" then
      match v with
      | .obj m => userpassword.kv2Fields rest dat (some m)
      | _ => none
    else none

/-- kv2UserPass: validate the KV-v2 shape (exactly the top-level fields
data and metadata, both maps, both present) and look the two attributes
up in the embedded data map. -/
def userpassword.kv2UserPass (d : userpassword.data) (usernameAttr passwordAttr : String) :
    String × String :=
  match userpassword.kv2Fields d none none with
  | none => ("", "")
  | some (dat, md) =>
    match dat, md with
    | some dat, some _ =>
      let username : String :=
        match dat.lookup usernameAttr with
        | some (.str u) => u
        | _ => ""
      let password : String :=
        match dat.lookup passwordAttr with
        | some (.str p) => p
        | _ => ""
      (username, password)
    | _, _ => ("", "")

/-- The strategy loop of Extract: try each lookup function in order and
return its result only when both parts are non-empty. -/
def userpassword.extractLoop :
    List (userpassword.data → String → String → String × String) →
    userpassword.data → String → String → String × String
  | [], _, _, _ => ("", "")
  | f :: rest, d, usernameAttr, passwordAttr =>
    let up := f d usernameAttr passwordAttr
    if up.1 ≠ "" ∧ up.2 ≠ "" then up
    else userpassword.extractLoop rest d usernameAttr passwordAttr

/-- Extract: attempt defaultUserPass then kv2UserPass; partial results are
never returned. -/
def userpassword.Extract (d : userpassword.data) (usernameAttr passwordAttr : String) :
    String × String :=
  userpassword.extractLoop [userpassword.defaultUserPass, userpassword.kv2UserPass]
    d usernameAttr passwordAttr

/-- Concatenation of a per-item output over a batch. -/
def vault.flatOut {Item Beta : Type} (f : Item → List Beta) : List Item → List Beta
  | [] => []
  | a :: rest => f a ++ vault.flatOut f rest

/-- The writes contributed to a Run by one selected item. -/
def vault.itemWrites {Item Env : Type} (process : Env → Item → vault.ItemOut)
    (ie : Item × Env) : List vault.Write :=
  (process ie.2 ie.1).writes

/-- The log events contributed to a Run by one selected item: the item
processor's own logs followed by the Run loop's error log when the item
failed. -/
def vault.itemLogs {Item Env : Type} (process : Env → Item → vault.ItemOut)
    (mkLog : Item → vault.Err → vault.LogEvent) (ie : Item × Env) : List vault.LogEvent :=
  (process ie.2 ie.1).logs ++
    (match (process ie.2 ie.1).err with
     | some e => [mkLog ie.1 e]
     | none => [])

/-- The list of counter snapshots (start, total), (start+1, total), ...,
of the given length. -/
def vault.snapsFrom (start total : Nat) : Nat → List (Nat × Nat)
  | 0 => []
  | n + 1 => (start, total) :: vault.snapsFrom (start + 1) total n

/-- A concrete store used in concrete evaluations. -/
def vault.sampleStore : vault.privateStore := ⟨"cs_sample", "gs_sample", "current"⟩

/-- A concrete item oracle whose store holds no token: processing it
succeeds immediately with no writes and no logs. -/
def vault.noTokenEnv : vault.TokenRenewEnv :=
  ⟨Except.ok (), Except.ok (), none, Except.ok (), Except.error vault.ApiErr.generic,
   Except.ok 1, Except.ok 1⟩

/-- A concrete store whose token is in the maintaining state. -/
def vault.inconsistencyStore : vault.privateStore := ⟨"cs_incon", "gs_incon", "maintaining"⟩

/-- A concrete item oracle: the renew-self call fails with a forbidden
response and the subsequent status update reports zero affected rows. -/
def vault.inconsistencyEnv : vault.TokenRenewEnv :=
  ⟨Except.ok (), Except.ok (), some (), Except.ok (),
   Except.error (vault.ApiErr.resp 403), Except.ok 0, Except.ok 1⟩

/-- Like inconsistencyEnv but the status update reports two affected
rows. -/
def vault.inconsistencyEnv2 : vault.TokenRenewEnv :=
  ⟨Except.ok (), Except.ok (), some (), Except.ok (),
   Except.error (vault.ApiErr.resp 403), Except.ok 2, Except.ok 1⟩

theorem vault.runLoop_no_cancel {Item Env : Type} (process : Env → Item → vault.ItemOut)
    (mkLog : Item → vault.Err → vault.LogEvent) (op : String)
    (ctxCanceled : Nat → Bool) (h : ∀ j, ctxCanceled j = false) (total : Nat) :
    ∀ (items : List (Item × Env)) (i p : Nat),
      vault.runLoop process mkLog op ctxCanceled total items i p =
        ⟨p + items.length,
         vault.flatOut (vault.itemWrites process) items,
         vault.flatOut (vault.itemLogs process mkLog) items,
         vault.snapsFrom (p + 1) total items.length,
         none⟩ := by
  intro items
  induction items with
  | nil => intro i p; simp [vault.runLoop, vault.flatOut, vault.snapsFrom]
  | cons ie rest ih =>
    intro i p
    obtain ⟨it, env⟩ := ie
    simp only [vault.runLoop, h i, Bool.false_eq_true, if_false, ih (i + 1) (p + 1),
      vault.flatOut, vault.itemWrites, vault.itemLogs, vault.snapsFrom, List.length_cons]
    congr 1
    omega

theorem vault.runLoop_err_shape {Item Env : Type} (process : Env → Item → vault.ItemOut)
    (mkLog : Item → vault.Err → vault.LogEvent) (op : String)
    (ctxCanceled : Nat → Bool) (total : Nat) :
    ∀ (items : List (Item × Env)) (i p : Nat),
      (vault.runLoop process mkLog op ctxCanceled total items i p).err = none ∨
      (vault.runLoop process mkLog op ctxCanceled total items i p).err =
        some (vault.Err.wrapCause vault.Cause.ctxErr op) := by
  intro items
  induction items with
  | nil => intro i p; left; simp [vault.runLoop]
  | cons ie rest ih =>
    intro i p
    obtain ⟨it, env⟩ := ie
    by_cases hc : ctxCanceled i
    · right; simp [vault.runLoop, hc]
    · have := ih (i + 1) (p + 1)
      simpa [vault.runLoop, hc] using this

theorem vault.runLoop_cancelAt {Item Env : Type} (process : Env → Item → vault.ItemOut)
    (mkLog : Item → vault.Err → vault.LogEvent) (op : String)
    (ctxCanceled : Nat → Bool) (total : Nat) :
    ∀ (k : Nat) (items : List (Item × Env)) (i p : Nat), k < items.length →
      (∀ j, j < k → ctxCanceled (i + j) = false) → ctxCanceled (i + k) = true →
      vault.runLoop process mkLog op ctxCanceled total items i p =
        ⟨p + k,
         vault.flatOut (vault.itemWrites process) (items.take k),
         vault.flatOut (vault.itemLogs process mkLog) (items.take k),
         vault.snapsFrom (p + 1) total k,
         some (vault.Err.wrapCause vault.Cause.ctxErr op)⟩ := by
  intro k
  induction k with
  | zero =>
    intro items i p hlen hpre hcan
    match items with
    | [] => simp at hlen
    | ie :: rest =>
      obtain ⟨it, env⟩ := ie
      simp only [Nat.add_zero] at hcan
      simp [vault.runLoop, hcan, vault.flatOut, vault.snapsFrom]
  | succ k ih =>
    intro items i p hlen hpre hcan
    match items with
    | [] => simp at hlen
    | ie :: rest =>
      obtain ⟨it, env⟩ := ie
      have h0 : ctxCanceled i = false := by
        have := hpre 0 (Nat.succ_pos k)
        simpa using this
      have hrest : vault.runLoop process mkLog op ctxCanceled total rest (i + 1) (p + 1) =
          ⟨p + 1 + k,
           vault.flatOut (vault.itemWrites process) (rest.take k),
           vault.flatOut (vault.itemLogs process mkLog) (rest.take k),
           vault.snapsFrom (p + 1 + 1) total k,
           some (vault.Err.wrapCause vault.Cause.ctxErr op)⟩ := by
        apply ih rest (i + 1) (p + 1)
        · simpa using Nat.lt_of_succ_lt_succ (by simpa using hlen)
        · intro j hj
          have := hpre (j + 1) (Nat.succ_lt_succ hj)
          simpa [Nat.add_assoc, Nat.add_comm 1 j] using this
        · have : i + (k + 1) = i + 1 + k := by omega
          rw [← this]; exact hcan
      simp only [vault.runLoop, h0, Bool.false_eq_true, if_false, hrest,
        List.take_succ_cons, vault.flatOut, vault.itemWrites, vault.itemLogs,
        vault.snapsFrom]
      congr 1
      omega

theorem vault.tokenRenewalRun_ctx0 (r : vault.TokenRenewalJob) (env : vault.TokenRenewRunEnv)
    (h0 : env.ctxCanceled 0 = true) :
    vault.TokenRenewalJob.Run r env =
      ({ r with running := false },
       ⟨false, none, [], [], [],
        some (vault.Err.wrapCause vault.Cause.ctxErr "vault.(TokenRenewalJob).Run")⟩) := by
  simp [vault.TokenRenewalJob.Run, vault.atomicCAS, h0]

theorem vault.tokenRenewalRun_searchErr (r : vault.TokenRenewalJob) (env : vault.TokenRenewRunEnv)
    (h0 : env.ctxCanceled 0 = false) (hs : env.search = Except.error ()) :
    vault.TokenRenewalJob.Run r env =
      ({ r with running := false },
       ⟨true, none, [], [], [],
        some (vault.Err.wrapCause vault.Cause.searchErr "vault.(TokenRenewalJob).Run")⟩) := by
  simp [vault.TokenRenewalJob.Run, vault.atomicCAS, h0, hs]

theorem vault.tokenRenewalRun_ok (r : vault.TokenRenewalJob) (env : vault.TokenRenewRunEnv)
    (ps : List (vault.privateStore × vault.TokenRenewEnv))
    (h : ∀ i, env.ctxCanceled i = false) (hs : env.search = Except.ok ps) :
    vault.TokenRenewalJob.Run r env =
      (⟨false, ps.length, ps.length⟩,
       ⟨true, some (0, ps.length),
        vault.flatOut (vault.itemWrites vault.TokenRenewalJob.renewToken) ps,
        vault.flatOut (vault.itemLogs vault.TokenRenewalJob.renewToken vault.tokenRenewalLog) ps,
        vault.snapsFrom 1 ps.length ps.length, none⟩) := by
  have hl := vault.runLoop_no_cancel vault.TokenRenewalJob.renewToken vault.tokenRenewalLog
    "vault.(TokenRenewalJob).Run" env.ctxCanceled h ps.length ps 1 0
  simp [vault.TokenRenewalJob.Run, vault.atomicCAS, h 0, hs, hl]

theorem vault.tokenRenewalRun_cancelAt (r : vault.TokenRenewalJob) (env : vault.TokenRenewRunEnv)
    (ps : List (vault.privateStore × vault.TokenRenewEnv)) (k : Nat)
    (h0 : env.ctxCanceled 0 = false) (hs : env.search = Except.ok ps) (hk : k < ps.length)
    (hpre : ∀ j, j < k → env.ctxCanceled (j + 1) = false) (hcan : env.ctxCanceled (k + 1) = true) :
    vault.TokenRenewalJob.Run r env =
      (⟨false, ps.length, k⟩,
       ⟨true, some (0, ps.length),
        vault.flatOut (vault.itemWrites vault.TokenRenewalJob.renewToken) (ps.take k),
        vault.flatOut (vault.itemLogs vault.TokenRenewalJob.renewToken vault.tokenRenewalLog)
          (ps.take k),
        vault.snapsFrom 1 ps.length k,
        some (vault.Err.wrapCause vault.Cause.ctxErr "vault.(TokenRenewalJob).Run")⟩) := by
  have hl := vault.runLoop_cancelAt vault.TokenRenewalJob.renewToken vault.tokenRenewalLog
    "vault.(TokenRenewalJob).Run" env.ctxCanceled ps.length k ps 1 0 hk
    (by intro j hj; have := hpre j hj; simpa [Nat.add_comm 1 j] using this)
    (by simpa [Nat.add_comm 1 k] using hcan)
  simp [vault.TokenRenewalJob.Run, vault.atomicCAS, h0, hs, hl]

theorem vault.tokenRevocationRun_ctx0 (r : vault.TokenRevocationJob) (env : vault.TokenRevokeRunEnv)
    (h0 : env.ctxCanceled 0 = true) :
    vault.TokenRevocationJob.Run r env =
      ({ r with running := false },
       ⟨false, none, [], [], [],
        some (vault.Err.wrapCause vault.Cause.ctxErr "vault.(TokenRevocationJob).Run")⟩) := by
  simp [vault.TokenRevocationJob.Run, vault.atomicCAS, h0]

theorem vault.tokenRevocationRun_searchErr (r : vault.TokenRevocationJob)
    (env : vault.TokenRevokeRunEnv)
    (h0 : env.ctxCanceled 0 = false) (hs : env.search = Except.error ()) :
    vault.TokenRevocationJob.Run r env =
      ({ r with running := false },
       ⟨true, none, [], [], [],
        some (vault.Err.wrapCause vault.Cause.searchErr "vault.(TokenRevocationJob).Run")⟩) := by
  simp [vault.TokenRevocationJob.Run, vault.atomicCAS, h0, hs]

theorem vault.tokenRevocationRun_ok (r : vault.TokenRevocationJob) (env : vault.TokenRevokeRunEnv)
    (ps : List (vault.privateStore × vault.TokenRevokeEnv))
    (h : ∀ i, env.ctxCanceled i = false) (hs : env.search = Except.ok ps) :
    vault.TokenRevocationJob.Run r env =
      (⟨false, ps.length, ps.length⟩,
       ⟨true, some (0, ps.length),
        vault.flatOut (vault.itemWrites vault.TokenRevocationJob.revokeToken) ps,
        vault.flatOut (vault.itemLogs vault.TokenRevocationJob.revokeToken vault.tokenRevocationLog) ps,
        vault.snapsFrom 1 ps.length ps.length, none⟩) := by
  have hl := vault.runLoop_no_cancel vault.TokenRevocationJob.revokeToken vault.tokenRevocationLog
    "vault.(TokenRevocationJob).Run" env.ctxCanceled h ps.length ps 1 0
  simp [vault.TokenRevocationJob.Run, vault.atomicCAS, h 0, hs, hl]

theorem vault.tokenRevocationRun_cancelAt (r : vault.TokenRevocationJob)
    (env : vault.TokenRevokeRunEnv)
    (ps : List (vault.privateStore × vault.TokenRevokeEnv)) (k : Nat)
    (h0 : env.ctxCanceled 0 = false) (hs : env.search = Except.ok ps) (hk : k < ps.length)
    (hpre : ∀ j, j < k → env.ctxCanceled (j + 1) = false) (hcan : env.ctxCanceled (k + 1) = true) :
    vault.TokenRevocationJob.Run r env =
      (⟨false, ps.length, k⟩,
       ⟨true, some (0, ps.length),
        vault.flatOut (vault.itemWrites vault.TokenRevocationJob.revokeToken) (ps.take k),
        vault.flatOut (vault.itemLogs vault.TokenRevocationJob.revokeToken vault.tokenRevocationLog)
          (ps.take k),
        vault.snapsFrom 1 ps.length k,
        some (vault.Err.wrapCause vault.Cause.ctxErr "vault.(TokenRevocationJob).Run")⟩) := by
  have hl := vault.runLoop_cancelAt vault.TokenRevocationJob.revokeToken vault.tokenRevocationLog
    "vault.(TokenRevocationJob).Run" env.ctxCanceled ps.length k ps 1 0 hk
    (by intro j hj; have := hpre j hj; simpa [Nat.add_comm 1 j] using this)
    (by simpa [Nat.add_comm 1 k] using hcan)
  simp [vault.TokenRevocationJob.Run, vault.atomicCAS, h0, hs, hl]

theorem vault.credRenewalRun_ctx0 (r : vault.CredentialRenewalJob) (env : vault.CredRenewRunEnv)
    (h0 : env.ctxCanceled 0 = true) :
    vault.CredentialRenewalJob.Run r env =
      ({ r with running := false },
       ⟨false, none, [], [], [],
        some (vault.Err.wrapCause vault.Cause.ctxErr "vault.(CredentialRenewalJob).Run")⟩) := by
  simp [vault.CredentialRenewalJob.Run, vault.atomicCAS, h0]

theorem vault.credRenewalRun_searchErr (r : vault.CredentialRenewalJob)
    (env : vault.CredRenewRunEnv)
    (h0 : env.ctxCanceled 0 = false) (hs : env.search = Except.error ()) :
    vault.CredentialRenewalJob.Run r env =
      ({ r with running := false },
       ⟨true, none, [], [], [],
        some (vault.Err.wrapCause vault.Cause.searchErr "vault.(CredentialRenewalJob).Run")⟩) := by
  simp [vault.CredentialRenewalJob.Run, vault.atomicCAS, h0, hs]

theorem vault.credRenewalRun_ok (r : vault.CredentialRenewalJob) (env : vault.CredRenewRunEnv)
    (creds : List (vault.privateCredential × vault.CredRenewEnv))
    (h : ∀ i, env.ctxCanceled i = false) (hs : env.search = Except.ok creds) :
    vault.CredentialRenewalJob.Run r env =
      (⟨false, creds.length, creds.length⟩,
       ⟨true, some (0, creds.length),
        vault.flatOut (vault.itemWrites vault.CredentialRenewalJob.renewCred) creds,
        vault.flatOut (vault.itemLogs vault.CredentialRenewalJob.renewCred vault.credRenewalLog) creds,
        vault.snapsFrom 1 creds.length creds.length, none⟩) := by
  have hl := vault.runLoop_no_cancel vault.CredentialRenewalJob.renewCred vault.credRenewalLog
    "vault.(CredentialRenewalJob).Run" env.ctxCanceled h creds.length creds 1 0
  simp [vault.CredentialRenewalJob.Run, vault.atomicCAS, h 0, hs, hl]

theorem vault.credRenewalRun_cancelAt (r : vault.CredentialRenewalJob)
    (env : vault.CredRenewRunEnv)
    (creds : List (vault.privateCredential × vault.CredRenewEnv)) (k : Nat)
    (h0 : env.ctxCanceled 0 = false) (hs : env.search = Except.ok creds) (hk : k < creds.length)
    (hpre : ∀ j, j < k → env.ctxCanceled (j + 1) = false) (hcan : env.ctxCanceled (k + 1) = true) :
    vault.CredentialRenewalJob.Run r env =
      (⟨false, creds.length, k⟩,
       ⟨true, some (0, creds.length),
        vault.flatOut (vault.itemWrites vault.CredentialRenewalJob.renewCred) (creds.take k),
        vault.flatOut (vault.itemLogs vault.CredentialRenewalJob.renewCred vault.credRenewalLog)
          (creds.take k),
        vault.snapsFrom 1 creds.length k,
        some (vault.Err.wrapCause vault.Cause.ctxErr "vault.(CredentialRenewalJob).Run")⟩) := by
  have hl := vault.runLoop_cancelAt vault.CredentialRenewalJob.renewCred vault.credRenewalLog
    "vault.(CredentialRenewalJob).Run" env.ctxCanceled creds.length k creds 1 0 hk
    (by intro j hj; have := hpre j hj; simpa [Nat.add_comm 1 j] using this)
    (by simpa [Nat.add_comm 1 k] using hcan)
  simp [vault.CredentialRenewalJob.Run, vault.atomicCAS, h0, hs, hl]

theorem vault.credRevocationRun_ctx0 (r : vault.CredentialRevocationJob)
    (env : vault.CredRevokeRunEnv)
    (h0 : env.ctxCanceled 0 = true) :
    vault.CredentialRevocationJob.Run r env =
      ({ r with running := false },
       ⟨false, none, [], [], [],
        some (vault.Err.wrapCause vault.Cause.ctxErr "vault.(CredentialRevocationJob).Run")⟩) := by
  simp [vault.CredentialRevocationJob.Run, vault.atomicCAS, h0]

theorem vault.credRevocationRun_searchErr (r : vault.CredentialRevocationJob)
    (env : vault.CredRevokeRunEnv)
    (h0 : env.ctxCanceled 0 = false) (hs : env.search = Except.error ()) :
    vault.CredentialRevocationJob.Run r env =
      ({ r with running := false },
       ⟨true, none, [], [], [],
        some (vault.Err.wrapCause vault.Cause.searchErr "vault.(CredentialRevocationJob).Run")⟩) := by
  simp [vault.CredentialRevocationJob.Run, vault.atomicCAS, h0, hs]

theorem vault.credRevocationRun_ok (r : vault.CredentialRevocationJob)
    (env : vault.CredRevokeRunEnv)
    (creds : List (vault.privateCredential × vault.CredRevokeEnv))
    (h : ∀ i, env.ctxCanceled i = false) (hs : env.search = Except.ok creds) :
    vault.CredentialRevocationJob.Run r env =
      (⟨false, creds.length, creds.length⟩,
       ⟨true, some (0, creds.length),
        vault.flatOut (vault.itemWrites vault.CredentialRevocationJob.revokeCred) creds,
        vault.flatOut (vault.itemLogs vault.CredentialRevocationJob.revokeCred vault.credRevocationLog) creds,
        vault.snapsFrom 1 creds.length creds.length, none⟩) := by
  have hl := vault.runLoop_no_cancel vault.CredentialRevocationJob.revokeCred vault.credRevocationLog
    "vault.(CredentialRevocationJob).Run" env.ctxCanceled h creds.length creds 1 0
  simp [vault.CredentialRevocationJob.Run, vault.atomicCAS, h 0, hs, hl]

theorem vault.credRevocationRun_cancelAt (r : vault.CredentialRevocationJob)
    (env : vault.CredRevokeRunEnv)
    (creds : List (vault.privateCredential × vault.CredRevokeEnv)) (k : Nat)
    (h0 : env.ctxCanceled 0 = false) (hs : env.search = Except.ok creds) (hk : k < creds.length)
    (hpre : ∀ j, j < k → env.ctxCanceled (j + 1) = false) (hcan : env.ctxCanceled (k + 1) = true) :
    vault.CredentialRevocationJob.Run r env =
      (⟨false, creds.length, k⟩,
       ⟨true, some (0, creds.length),
        vault.flatOut (vault.itemWrites vault.CredentialRevocationJob.revokeCred) (creds.take k),
        vault.flatOut (vault.itemLogs vault.CredentialRevocationJob.revokeCred vault.credRevocationLog)
          (creds.take k),
        vault.snapsFrom 1 creds.length k,
        some (vault.Err.wrapCause vault.Cause.ctxErr "vault.(CredentialRevocationJob).Run")⟩) := by
  have hl := vault.runLoop_cancelAt vault.CredentialRevocationJob.revokeCred vault.credRevocationLog
    "vault.(CredentialRevocationJob).Run" env.ctxCanceled creds.length k creds 1 0 hk
    (by intro j hj; have := hpre j hj; simpa [Nat.add_comm 1 j] using this)
    (by simpa [Nat.add_comm 1 k] using hcan)
  simp [vault.CredentialRevocationJob.Run, vault.atomicCAS, h0, hs, hl]

theorem userpassword.extractLoop_no_partial
    (fs : List (userpassword.data → String → String → String × String))
    (d : userpassword.data) (ua pa : String) :
    ((userpassword.extractLoop fs d ua pa).1 ≠ "" ∧ (userpassword.extractLoop fs d ua pa).2 ≠ "") ∨
    userpassword.extractLoop fs d ua pa = ("", "") := by
  induction fs with
  | nil => right; rfl
  | cons f rest ih =>
    simp only [userpassword.extractLoop]
    split
    · next hcond => left; exact hcond
    · exact ih

/-- C10: For every input map and every pair of attribute names, Extract
never returns a partial result: either both the username and the password
are non-empty, or the result is exactly the pair of empty strings — even
when one of the underlying lookup strategies finds only one of the two
attributes. -/
theorem userpassword.Extract_no_partial (d : userpassword.data) (ua pa : String) :
    ((userpassword.Extract d ua pa).1 ≠ "" ∧ (userpassword.Extract d ua pa).2 ≠ "") ∨
    userpassword.Extract d ua pa = ("", "") :=
  userpassword.extractLoop_no_partial
    [userpassword.defaultUserPass, userpassword.kv2UserPass] d ua pa

/-- C7: For the token renewal and credential renewal jobs, NextRunIn
returns 0 when the data-derived time-until-renewal is already negative;
it returns the fixed 5-minute fallback together with the wrapped error
when the query fails; it returns the 5-minute fallback with no error when
the query yields no rows; and its returned duration is never negative. -/
theorem vault.nextRunIn_spec :
    (∀ (n : vault.NextRenewal) (rest : List (Except Unit vault.NextRenewal)),
       n.RenewalIn < 0 →
       vault.TokenRenewalJob.NextRunIn (Except.ok (Except.ok n :: rest)) = (0, none) ∧
       vault.CredentialRenewalJob.NextRunIn (Except.ok (Except.ok n :: rest)) = (0, none)) ∧
    (vault.TokenRenewalJob.NextRunIn (Except.error ()) =
       (vault.defaultNextRunIn,
        some (vault.Err.wrap (vault.Err.wrapCause vault.Cause.queryErr "vault.nextRenewal")
          "vault.(TokenRenewalJob).NextRunIn")) ∧
     vault.CredentialRenewalJob.NextRunIn (Except.error ()) =
       (vault.defaultNextRunIn,
        some (vault.Err.wrap (vault.Err.wrapCause vault.Cause.queryErr "vault.nextRenewal")
          "vault.(CredentialRenewalJob).NextRunIn"))) ∧
    (vault.TokenRenewalJob.NextRunIn (Except.ok []) = (vault.defaultNextRunIn, none) ∧
     vault.CredentialRenewalJob.NextRunIn (Except.ok []) = (vault.defaultNextRunIn, none)) ∧
    (∀ q : vault.QueryResult,
       0 ≤ (vault.TokenRenewalJob.NextRunIn q).1 ∧
       0 ≤ (vault.CredentialRenewalJob.NextRunIn q).1) := by
  refine ⟨?_, ⟨rfl, rfl⟩, ⟨rfl, rfl⟩, ?_⟩
  · intro n rest hn
    constructor <;>
      simp [vault.TokenRenewalJob.NextRunIn, vault.CredentialRenewalJob.NextRunIn,
        vault.nextRenewal, hn]
  · intro q
    match q with
    | .error u =>
      cases u
      exact ⟨by decide, by decide⟩
    | .ok [] =>
      exact ⟨by decide, by decide⟩
    | .ok (.error u :: rest) =>
      cases u
      constructor <;>
        · simp [vault.TokenRenewalJob.NextRunIn, vault.CredentialRenewalJob.NextRunIn,
            vault.nextRenewal]
          decide
    | .ok (.ok n :: rest) =>
      by_cases hn : n.RenewalIn < 0
      · constructor <;>
          simp [vault.TokenRenewalJob.NextRunIn, vault.CredentialRenewalJob.NextRunIn,
            vault.nextRenewal, hn]
      · have hpos : 0 ≤ n.RenewalIn * vault.timeSecond :=
          mul_nonneg (le_of_not_lt hn) (by decide)
        constructor <;>
          · simp [vault.TokenRenewalJob.NextRunIn, vault.CredentialRenewalJob.NextRunIn,
              vault.nextRenewal, hn]
            exact hpos

/-- Witness for C7 at concrete inputs. -/
theorem vault.nextRunIn_spec_witness :
    vault.TokenRenewalJob.NextRunIn (Except.ok [Except.ok ⟨-5⟩]) = (0, none) ∧
    vault.CredentialRenewalJob.NextRunIn (Except.ok [Except.ok ⟨-5⟩]) = (0, none) :=
  vault.nextRunIn_spec.1 ⟨-5⟩ [] (by decide)

/-- C3: For the token renewal job, whenever the renew-self call fails with
a forbidden (HTTP 403) outcome and the status update reports exactly one
affected row, renewToken writes exactly the status update to expired and
returns no error; the only log it can emit is the informational downgrade
notice for a current token, and a Run over such an item emits no error
log at all. -/
theorem vault.renewToken_forbidden_marks_expired
    (env : vault.TokenRenewEnv) (s : vault.privateStore) (e : vault.ApiErr)
    (h1 : env.getWrapper = Except.ok ()) (h2 : env.decrypt = Except.ok ())
    (h3 : env.token = some ()) (h4 : env.client = Except.ok ())
    (h5 : env.renewToken = Except.error e) (h6 : vault.isForbidden e = true)
    (h7 : env.execStatus = Except.ok 1) :
    vault.TokenRenewalJob.renewToken env s =
      ⟨[vault.Write.tokenStatus vault.ExpiredToken],
       if s.TokenStatus = vault.CurrentToken then
         [vault.LogEvent.infoLog "Vault credential store current token has expired" s.StoreId]
       else [],
       none⟩ ∧
    (∀ (r : vault.TokenRenewalJob) (renv : vault.TokenRenewRunEnv),
       (∀ i, renv.ctxCanceled i = false) → renv.search = Except.ok [(s, env)] →
       (vault.TokenRenewalJob.Run r renv).2.result = none ∧
       (vault.TokenRenewalJob.Run r renv).2.logs =
         (if s.TokenStatus = vault.CurrentToken then
            [vault.LogEvent.infoLog "Vault credential store current token has expired" s.StoreId]
          else [])) := by
  have hitem : vault.TokenRenewalJob.renewToken env s =
      ⟨[vault.Write.tokenStatus vault.ExpiredToken],
       if s.TokenStatus = vault.CurrentToken then
         [vault.LogEvent.infoLog "Vault credential store current token has expired" s.StoreId]
       else [],
       none⟩ := by
    simp [vault.TokenRenewalJob.renewToken, h1, h2, h3, h4, h5, h6, h7]
  refine ⟨hitem, ?_⟩
  intro r renv hctx hsearch
  rw [vault.tokenRenewalRun_ok r renv [(s, env)] hctx hsearch]
  simp [vault.flatOut, vault.itemLogs, hitem]

/-- Witness for C3 at a concrete input (a maintaining token, renew-self
forbidden, one affected row). -/
theorem vault.renewToken_forbidden_marks_expired_witness :
    vault.TokenRenewalJob.renewToken
      ⟨Except.ok (), Except.ok (), some (), Except.ok (),
       Except.error (vault.ApiErr.resp 403), Except.ok 1, Except.ok 1⟩
      ⟨"cs_w3", "gs_w3", "maintaining"⟩ =
      ⟨[vault.Write.tokenStatus vault.ExpiredToken], [], none⟩ := by
  have h := (vault.renewToken_forbidden_marks_expired
    ⟨Except.ok (), Except.ok (), some (), Except.ok (),
     Except.error (vault.ApiErr.resp 403), Except.ok 1, Except.ok 1⟩
    ⟨"cs_w3", "gs_w3", "maintaining"⟩ (vault.ApiErr.resp 403)
    rfl rfl rfl rfl rfl rfl rfl).1
  rw [h]
  decide

/-- C5: For the token revocation job, a revoke-self failure with a
forbidden (HTTP 403) outcome is treated as success-equivalent: the error
is cleared, processing falls through to the status update to revoked,
and with exactly one affected row revokeToken returns no error and emits
no log. -/
theorem vault.revokeToken_forbidden_marks_revoked
    (env : vault.TokenRevokeEnv) (s : vault.privateStore) (e : vault.ApiErr)
    (h1 : env.getWrapper = Except.ok ()) (h2 : env.decrypt = Except.ok ())
    (h3 : env.token = some ()) (h4 : env.client = Except.ok ())
    (h5 : env.revokeToken = some e) (h6 : vault.isForbidden e = true)
    (h7 : env.execStatus = Except.ok 1) :
    vault.TokenRevocationJob.revokeToken env s =
      ⟨[vault.Write.tokenStatus vault.RevokedToken], [], none⟩ := by
  simp [vault.TokenRevocationJob.revokeToken, h1, h2, h3, h4, h5, h6, h7]

/-- Witness for C5 at a concrete input. -/
theorem vault.revokeToken_forbidden_marks_revoked_witness :
    vault.TokenRevocationJob.revokeToken
      ⟨Except.ok (), Except.ok (), some (), Except.ok (), some (vault.ApiErr.resp 403),
       Except.ok 1⟩
      ⟨"cs_w5", "gs_w5", "maintaining"⟩ =
      ⟨[vault.Write.tokenStatus vault.RevokedToken], [], none⟩ :=
  vault.revokeToken_forbidden_marks_revoked
    ⟨Except.ok (), Except.ok (), some (), Except.ok (), some (vault.ApiErr.resp 403),
     Except.ok 1⟩
    ⟨"cs_w5", "gs_w5", "maintaining"⟩ (vault.ApiErr.resp 403)
    rfl rfl rfl rfl rfl rfl rfl

/-- C6: For the credential renewal job, a renew-lease failure with a
bad-request (HTTP 400) outcome marks the credential expired: renewCred
issues exactly the status update to expired, and with exactly one
affected row it returns no error. -/
theorem vault.renewCred_badRequest_marks_expired
    (env : vault.CredRenewEnv) (c : vault.privateCredential) (e : vault.ApiErr)
    (h1 : env.getWrapper = Except.ok ()) (h2 : env.decrypt = Except.ok ())
    (h3 : env.client = Except.ok ())
    (h4 : env.renewLease c.ExternalId (c.ExpirationTime - c.LastRenewalTime) = Except.error e)
    (h5 : vault.isBadRequest e = true) (h6 : env.execStatus = Except.ok 1) :
    vault.CredentialRenewalJob.renewCred env c =
      ⟨[vault.Write.credStatus vault.ExpiredCredential], [], none⟩ := by
  simp [vault.CredentialRenewalJob.renewCred, h1, h2, h3, h4, h5, h6]

/-- Witness for C6 at a concrete input. -/
theorem vault.renewCred_badRequest_marks_expired_witness :
    vault.CredentialRenewalJob.renewCred
      ⟨Except.ok (), Except.ok (), Except.ok (),
       fun _ _ => Except.error (vault.ApiErr.resp 400), Except.ok 1, Except.ok 1⟩
      ⟨"cl_w6", "gs_w6", "lease_w6", 9000, 3000⟩ =
      ⟨[vault.Write.credStatus vault.ExpiredCredential], [], none⟩ :=
  vault.renewCred_badRequest_marks_expired
    ⟨Except.ok (), Except.ok (), Except.ok (),
     fun _ _ => Except.error (vault.ApiErr.resp 400), Except.ok 1, Except.ok 1⟩
    ⟨"cl_w6", "gs_w6", "lease_w6", 9000, 3000⟩ (vault.ApiErr.resp 400)
    rfl rfl rfl rfl rfl rfl

/-- C1: evidence of the code bug.  With the running flag already set
(a first Run in progress), a second invocation of Run does NOT return the
JobAlreadyRunning error: the guard CAS(Load(), true) compares the current
flag value with itself, so it always swaps and reports success.  The
second Run proceeds, processes the whole one-item batch and returns nil;
afterwards the flag is false.  (The claim, and the source's own doc
comments, say the second invocation fails with JobAlreadyRunning.) -/
theorem vault.run_guard_accepts_second_invocation :
    (vault.TokenRenewalJob.Run ⟨true, 0, 0⟩
       ⟨fun _ => false, Except.ok [(vault.sampleStore, vault.noTokenEnv)]⟩).2.result = none ∧
    (vault.TokenRenewalJob.Run ⟨true, 0, 0⟩
       ⟨fun _ => false, Except.ok [(vault.sampleStore, vault.noTokenEnv)]⟩).1 =
      ⟨false, 1, 1⟩ := by
  constructor <;> rfl

/-- C2 counterexample: a status update reporting zero affected rows (a
write-inconsistency) makes renewToken return a distinguishable error, but
Run swallows it: Run returns nil, not an error, contradicting the claim
that the inconsistency is surfaced as a run-level error. -/
theorem vault.writeInconsistency_not_a_run_error :
    (vault.TokenRenewalJob.renewToken vault.inconsistencyEnv vault.inconsistencyStore).err =
      some (vault.Err.new vault.ErrCode.Unknown "vault.(TokenRenewalJob).renewToken"
        "token expired but failed to update repo") ∧
    (vault.TokenRenewalJob.Run ⟨false, 0, 0⟩
       ⟨fun _ => false, Except.ok [(vault.inconsistencyStore, vault.inconsistencyEnv)]⟩).2.result =
      none := by
  constructor <;> rfl

/-- C2 (amended): for every job kind, an affected-row count different
from 1 on a status or expiration update makes the per-item processing
function return a distinguishable error (errors.New with code Unknown),
which Run logs for that item and then swallows: Run continues and
returns nil.  Conjuncts: token renewal status site (run level), token
renewal expiration site, token revocation status site (run level),
credential renewal status site (run level), credential renewal
expiration site, credential revocation status site (run level). -/
theorem vault.writeInconsistency_item_error_logged :
    (∀ (r : vault.TokenRenewalJob) (renv : vault.TokenRenewRunEnv)
       (s : vault.privateStore) (env : vault.TokenRenewEnv) (e : vault.ApiErr) (n : Int),
       (∀ i, renv.ctxCanceled i = false) → renv.search = Except.ok [(s, env)] →
       env.getWrapper = Except.ok () → env.decrypt = Except.ok () →
       env.token = some () → env.client = Except.ok () →
       env.renewToken = Except.error e → vault.isForbidden e = true →
       env.execStatus = Except.ok n → n ≠ 1 →
       (vault.TokenRenewalJob.Run r renv).2.result = none ∧
       (vault.TokenRenewalJob.Run r renv).2.logs =
         [vault.LogEvent.errorLog "error renewing token" s.StoreId
           (vault.Err.new vault.ErrCode.Unknown "vault.(TokenRenewalJob).renewToken"
             "token expired but failed to update repo")]) ∧
    (∀ (env : vault.TokenRenewEnv) (s : vault.privateStore) (rt : vault.RenewedToken)
       (ttl n : Int),
       env.getWrapper = Except.ok () → env.decrypt = Except.ok () →
       env.token = some () → env.client = Except.ok () →
       env.renewToken = Except.ok rt → rt.tokenTTL = Except.ok ttl →
       env.execExpiration = Except.ok n → n ≠ 1 →
       (vault.TokenRenewalJob.renewToken env s).err =
         some (vault.Err.new vault.ErrCode.Unknown "vault.(TokenRenewalJob).renewToken"
           "token renewed but failed to update repo")) ∧
    (∀ (r : vault.TokenRevocationJob) (renv : vault.TokenRevokeRunEnv)
       (s : vault.privateStore) (env : vault.TokenRevokeEnv) (n : Int),
       (∀ i, renv.ctxCanceled i = false) → renv.search = Except.ok [(s, env)] →
       env.getWrapper = Except.ok () → env.decrypt = Except.ok () →
       env.token = some () → env.client = Except.ok () →
       (env.revokeToken = none ∨
         ∃ e, env.revokeToken = some e ∧ vault.isForbidden e = true) →
       env.execStatus = Except.ok n → n ≠ 1 →
       (vault.TokenRevocationJob.Run r renv).2.result = none ∧
       (vault.TokenRevocationJob.Run r renv).2.logs =
         [vault.LogEvent.errorLog "error revoking token" s.StoreId
           (vault.Err.new vault.ErrCode.Unknown "vault.(TokenRevocationJob).revokeToken"
             "token revoked but failed to update repo")]) ∧
    (∀ (r : vault.CredentialRenewalJob) (renv : vault.CredRenewRunEnv)
       (c : vault.privateCredential) (env : vault.CredRenewEnv) (e : vault.ApiErr) (n : Int),
       (∀ i, renv.ctxCanceled i = false) → renv.search = Except.ok [(c, env)] →
       env.getWrapper = Except.ok () → env.decrypt = Except.ok () →
       env.client = Except.ok () →
       env.renewLease c.ExternalId (c.ExpirationTime - c.LastRenewalTime) = Except.error e →
       vault.isBadRequest e = true →
       env.execStatus = Except.ok n → n ≠ 1 →
       (vault.CredentialRenewalJob.Run r renv).2.result = none ∧
       (vault.CredentialRenewalJob.Run r renv).2.logs =
         [vault.LogEvent.errorLog "error renewing credential" c.PublicId
           (vault.Err.new vault.ErrCode.Unknown "vault.(CredentialRenewalJob).renewCred"
             "credential expired but failed to update repo")]) ∧
    (∀ (env : vault.CredRenewEnv) (c : vault.privateCredential) (rl : vault.RenewedLease)
       (n : Int),
       env.getWrapper = Except.ok () → env.decrypt = Except.ok () →
       env.client = Except.ok () →
       env.renewLease c.ExternalId (c.ExpirationTime - c.LastRenewalTime) = Except.ok rl →
       env.execExpiration = Except.ok n → n ≠ 1 →
       (vault.CredentialRenewalJob.renewCred env c).err =
         some (vault.Err.new vault.ErrCode.Unknown "vault.(CredentialRenewalJob).renewCred"
           "credential renewed but failed to update repo")) ∧
    (∀ (r : vault.CredentialRevocationJob) (renv : vault.CredRevokeRunEnv)
       (c : vault.privateCredential) (env : vault.CredRevokeEnv) (n : Int),
       (∀ i, renv.ctxCanceled i = false) → renv.search = Except.ok [(c, env)] →
       env.getWrapper = Except.ok () → env.decrypt = Except.ok () →
       env.client = Except.ok () →
       env.revokeLease c.ExternalId = none →
       env.execStatus = Except.ok n → n ≠ 1 →
       (vault.CredentialRevocationJob.Run r renv).2.result = none ∧
       (vault.CredentialRevocationJob.Run r renv).2.logs =
         [vault.LogEvent.errorLog "error revoking credential" c.PublicId
           (vault.Err.new vault.ErrCode.Unknown "vault.(CredentialRenewalJob).revokeCred"
             "credential revoked but failed to update repo")]) := by
  refine ⟨?_, ?_, ?_, ?_, ?_, ?_⟩
  · intro r renv s env e n hctx hsearch h1 h2 h3 h4 h5 h6 h7 hn
    have hitem : vault.TokenRenewalJob.renewToken env s =
        ⟨[vault.Write.tokenStatus vault.ExpiredToken], [],
         some (vault.Err.new vault.ErrCode.Unknown "vault.(TokenRenewalJob).renewToken"
           "token expired but failed to update repo")⟩ := by
      simp [vault.TokenRenewalJob.renewToken, h1, h2, h3, h4, h5, h6, h7, hn]
    rw [vault.tokenRenewalRun_ok r renv [(s, env)] hctx hsearch]
    simp [vault.flatOut, vault.itemLogs, hitem, vault.tokenRenewalLog]
  · intro env s rt ttl n h1 h2 h3 h4 h5 h6 h7 hn
    simp [vault.TokenRenewalJob.renewToken, h1, h2, h3, h4, h5, h6, h7, hn]
  · intro r renv s env n hctx hsearch h1 h2 h3 h4 hrv h5 hn
    have hitem : vault.TokenRevocationJob.revokeToken env s =
        ⟨[vault.Write.tokenStatus vault.RevokedToken], [],
         some (vault.Err.new vault.ErrCode.Unknown "vault.(TokenRevocationJob).revokeToken"
           "token revoked but failed to update repo")⟩ := by
      rcases hrv with hnone | ⟨e, hsome, hforb⟩
      · simp [vault.TokenRevocationJob.revokeToken, h1, h2, h3, h4, hnone, h5, hn]
      · simp [vault.TokenRevocationJob.revokeToken, h1, h2, h3, h4, hsome, hforb, h5, hn]
    rw [vault.tokenRevocationRun_ok r renv [(s, env)] hctx hsearch]
    simp [vault.flatOut, vault.itemLogs, hitem, vault.tokenRevocationLog]
  · intro r renv c env e n hctx hsearch h1 h2 h3 h4 h5 h6 hn
    have hitem : vault.CredentialRenewalJob.renewCred env c =
        ⟨[vault.Write.credStatus vault.ExpiredCredential], [],
         some (vault.Err.new vault.ErrCode.Unknown "vault.(CredentialRenewalJob).renewCred"
           "credential expired but failed to update repo")⟩ := by
      simp [vault.CredentialRenewalJob.renewCred, h1, h2, h3, h4, h5, h6, hn]
    rw [vault.credRenewalRun_ok r renv [(c, env)] hctx hsearch]
    simp [vault.flatOut, vault.itemLogs, hitem, vault.credRenewalLog]
  · intro env c rl n h1 h2 h3 h4 h5 hn
    simp [vault.CredentialRenewalJob.renewCred, h1, h2, h3, h4, h5, hn]
  · intro r renv c env n hctx hsearch h1 h2 h3 h4 h5 hn
    have hitem : vault.CredentialRevocationJob.revokeCred env c =
        ⟨[vault.Write.credStatus vault.RevokedCredential], [],
         some (vault.Err.new vault.ErrCode.Unknown "vault.(CredentialRenewalJob).revokeCred"
           "credential revoked but failed to update repo")⟩ := by
      simp [vault.CredentialRevocationJob.revokeCred, h1, h2, h3, h4, h5, hn]
    rw [vault.credRevocationRun_ok r renv [(c, env)] hctx hsearch]
    simp [vault.flatOut, vault.itemLogs, hitem, vault.credRevocationLog]

/-- Witness for the amended C2 at a concrete input (two affected rows on
the status update after a forbidden renew-self). -/
theorem vault.writeInconsistency_item_error_logged_witness :
    (vault.TokenRenewalJob.Run ⟨false, 0, 0⟩
       ⟨fun _ => false, Except.ok [(vault.inconsistencyStore, vault.inconsistencyEnv2)]⟩).2.result =
      none ∧
    (vault.TokenRenewalJob.Run ⟨false, 0, 0⟩
       ⟨fun _ => false, Except.ok [(vault.inconsistencyStore, vault.inconsistencyEnv2)]⟩).2.logs =
      [vault.LogEvent.errorLog "error renewing token" "cs_incon"
        (vault.Err.new vault.ErrCode.Unknown "vault.(TokenRenewalJob).renewToken"
          "token expired but failed to update repo")] :=
  vault.writeInconsistency_item_error_logged.1 ⟨false, 0, 0⟩
    ⟨fun _ => false, Except.ok [(vault.inconsistencyStore, vault.inconsistencyEnv2)]⟩
    vault.inconsistencyStore vault.inconsistencyEnv2 (vault.ApiErr.resp 403) 2
    (fun _ => rfl) rfl rfl rfl rfl rfl rfl rfl rfl (by decide)

theorem vault.tokenRenewalRun_result_ok_path (r : vault.TokenRenewalJob)
    (env : vault.TokenRenewRunEnv) (ps : List (vault.privateStore × vault.TokenRenewEnv))
    (h0 : env.ctxCanceled 0 = false) (hs : env.search = Except.ok ps) :
    (vault.TokenRenewalJob.Run r env).2.result =
      (vault.runLoop vault.TokenRenewalJob.renewToken vault.tokenRenewalLog
        "vault.(TokenRenewalJob).Run" env.ctxCanceled ps.length ps 1 0).err := by
  simp [vault.TokenRenewalJob.Run, vault.atomicCAS, h0, hs]

theorem vault.tokenRevocationRun_result_ok_path (r : vault.TokenRevocationJob)
    (env : vault.TokenRevokeRunEnv) (ps : List (vault.privateStore × vault.TokenRevokeEnv))
    (h0 : env.ctxCanceled 0 = false) (hs : env.search = Except.ok ps) :
    (vault.TokenRevocationJob.Run r env).2.result =
      (vault.runLoop vault.TokenRevocationJob.revokeToken vault.tokenRevocationLog
        "vault.(TokenRevocationJob).Run" env.ctxCanceled ps.length ps 1 0).err := by
  simp [vault.TokenRevocationJob.Run, vault.atomicCAS, h0, hs]

theorem vault.credRenewalRun_result_ok_path (r : vault.CredentialRenewalJob)
    (env : vault.CredRenewRunEnv) (creds : List (vault.privateCredential × vault.CredRenewEnv))
    (h0 : env.ctxCanceled 0 = false) (hs : env.search = Except.ok creds) :
    (vault.CredentialRenewalJob.Run r env).2.result =
      (vault.runLoop vault.CredentialRenewalJob.renewCred vault.credRenewalLog
        "vault.(CredentialRenewalJob).Run" env.ctxCanceled creds.length creds 1 0).err := by
  simp [vault.CredentialRenewalJob.Run, vault.atomicCAS, h0, hs]

theorem vault.credRevocationRun_result_ok_path (r : vault.CredentialRevocationJob)
    (env : vault.CredRevokeRunEnv) (creds : List (vault.privateCredential × vault.CredRevokeEnv))
    (h0 : env.ctxCanceled 0 = false) (hs : env.search = Except.ok creds) :
    (vault.CredentialRevocationJob.Run r env).2.result =
      (vault.runLoop vault.CredentialRevocationJob.revokeCred vault.credRevocationLog
        "vault.(CredentialRevocationJob).Run" env.ctxCanceled creds.length creds 1 0).err := by
  simp [vault.CredentialRevocationJob.Run, vault.atomicCAS, h0, hs]

/-- C4: For every job kind, Run returns an error only for context
cancellation, batch selection failure, or the already-running condition
(the only possible results are nil or one of those three errors); and
when the context never cancels and selection succeeds, Run returns nil
regardless of every item outcome, processes every selected item, and
logs exactly the per-item output including an error log for each failing
item. -/
theorem vault.run_error_causes :
    ((∀ (r : vault.TokenRenewalJob) (env : vault.TokenRenewRunEnv),
       (vault.TokenRenewalJob.Run r env).2.result = none ∨
       (vault.TokenRenewalJob.Run r env).2.result =
         some (vault.Err.wrapCause vault.Cause.ctxErr "vault.(TokenRenewalJob).Run") ∨
       (vault.TokenRenewalJob.Run r env).2.result =
         some (vault.Err.wrapCause vault.Cause.searchErr "vault.(TokenRenewalJob).Run") ∨
       (vault.TokenRenewalJob.Run r env).2.result =
         some (vault.Err.new vault.ErrCode.JobAlreadyRunning "vault.(TokenRenewalJob).Run"
           "job already running")) ∧
     (∀ (r : vault.TokenRenewalJob) (env : vault.TokenRenewRunEnv) ps,
       (∀ i, env.ctxCanceled i = false) → env.search = Except.ok ps →
       (vault.TokenRenewalJob.Run r env).2.result = none ∧
       (vault.TokenRenewalJob.Run r env).1.numProcessed = ps.length ∧
       (vault.TokenRenewalJob.Run r env).2.logs =
         vault.flatOut (vault.itemLogs vault.TokenRenewalJob.renewToken vault.tokenRenewalLog) ps)) ∧
    ((∀ (r : vault.TokenRevocationJob) (env : vault.TokenRevokeRunEnv),
       (vault.TokenRevocationJob.Run r env).2.result = none ∨
       (vault.TokenRevocationJob.Run r env).2.result =
         some (vault.Err.wrapCause vault.Cause.ctxErr "vault.(TokenRevocationJob).Run") ∨
       (vault.TokenRevocationJob.Run r env).2.result =
         some (vault.Err.wrapCause vault.Cause.searchErr "vault.(TokenRevocationJob).Run") ∨
       (vault.TokenRevocationJob.Run r env).2.result =
         some (vault.Err.new vault.ErrCode.JobAlreadyRunning "vault.(TokenRevocationJob).Run"
           "job already running")) ∧
     (∀ (r : vault.TokenRevocationJob) (env : vault.TokenRevokeRunEnv) ps,
       (∀ i, env.ctxCanceled i = false) → env.search = Except.ok ps →
       (vault.TokenRevocationJob.Run r env).2.result = none ∧
       (vault.TokenRevocationJob.Run r env).1.numProcessed = ps.length ∧
       (vault.TokenRevocationJob.Run r env).2.logs =
         vault.flatOut (vault.itemLogs vault.TokenRevocationJob.revokeToken vault.tokenRevocationLog) ps)) ∧
    ((∀ (r : vault.CredentialRenewalJob) (env : vault.CredRenewRunEnv),
       (vault.CredentialRenewalJob.Run r env).2.result = none ∨
       (vault.CredentialRenewalJob.Run r env).2.result =
         some (vault.Err.wrapCause vault.Cause.ctxErr "vault.(CredentialRenewalJob).Run") ∨
       (vault.CredentialRenewalJob.Run r env).2.result =
         some (vault.Err.wrapCause vault.Cause.searchErr "vault.(CredentialRenewalJob).Run") ∨
       (vault.CredentialRenewalJob.Run r env).2.result =
         some (vault.Err.new vault.ErrCode.JobAlreadyRunning "vault.(CredentialRenewalJob).Run"
           "job already running")) ∧
     (∀ (r : vault.CredentialRenewalJob) (env : vault.CredRenewRunEnv) creds,
       (∀ i, env.ctxCanceled i = false) → env.search = Except.ok creds →
       (vault.CredentialRenewalJob.Run r env).2.result = none ∧
       (vault.CredentialRenewalJob.Run r env).1.numProcessed = creds.length ∧
       (vault.CredentialRenewalJob.Run r env).2.logs =
         vault.flatOut (vault.itemLogs vault.CredentialRenewalJob.renewCred vault.credRenewalLog) creds)) ∧
    ((∀ (r : vault.CredentialRevocationJob) (env : vault.CredRevokeRunEnv),
       (vault.CredentialRevocationJob.Run r env).2.result = none ∨
       (vault.CredentialRevocationJob.Run r env).2.result =
         some (vault.Err.wrapCause vault.Cause.ctxErr "vault.(CredentialRevocationJob).Run") ∨
       (vault.CredentialRevocationJob.Run r env).2.result =
         some (vault.Err.wrapCause vault.Cause.searchErr "vault.(CredentialRevocationJob).Run") ∨
       (vault.CredentialRevocationJob.Run r env).2.result =
         some (vault.Err.new vault.ErrCode.JobAlreadyRunning "vault.(CredentialRevocationJob).Run"
           "job already running")) ∧
     (∀ (r : vault.CredentialRevocationJob) (env : vault.CredRevokeRunEnv) creds,
       (∀ i, env.ctxCanceled i = false) → env.search = Except.ok creds →
       (vault.CredentialRevocationJob.Run r env).2.result = none ∧
       (vault.CredentialRevocationJob.Run r env).1.numProcessed = creds.length ∧
       (vault.CredentialRevocationJob.Run r env).2.logs =
         vault.flatOut (vault.itemLogs vault.CredentialRevocationJob.revokeCred vault.credRevocationLog) creds)) := by
  refine ⟨⟨?_, ?_⟩, ⟨?_, ?_⟩, ⟨?_, ?_⟩, ⟨?_, ?_⟩⟩
  · intro r env
    by_cases h0 : env.ctxCanceled 0
    · rw [vault.tokenRenewalRun_ctx0 r env h0]; right; left; rfl
    · have h0f : env.ctxCanceled 0 = false := by simpa using h0
      cases hs : env.search with
      | error u =>
        cases u
        rw [vault.tokenRenewalRun_searchErr r env h0f hs]; right; right; left; rfl
      | ok ps =>
        have hres := vault.tokenRenewalRun_result_ok_path r env ps h0f hs
        rcases vault.runLoop_err_shape vault.TokenRenewalJob.renewToken vault.tokenRenewalLog
          "vault.(TokenRenewalJob).Run" env.ctxCanceled ps.length ps 1 0 with h | h
        · left; rw [hres, h]
        · right; left; rw [hres, h]
  · intro r env ps hctx hs
    rw [vault.tokenRenewalRun_ok r env ps hctx hs]
    exact ⟨rfl, rfl, rfl⟩
  · intro r env
    by_cases h0 : env.ctxCanceled 0
    · rw [vault.tokenRevocationRun_ctx0 r env h0]; right; left; rfl
    · have h0f : env.ctxCanceled 0 = false := by simpa using h0
      cases hs : env.search with
      | error u =>
        cases u
        rw [vault.tokenRevocationRun_searchErr r env h0f hs]; right; right; left; rfl
      | ok ps =>
        have hres := vault.tokenRevocationRun_result_ok_path r env ps h0f hs
        rcases vault.runLoop_err_shape vault.TokenRevocationJob.revokeToken vault.tokenRevocationLog
          "vault.(TokenRevocationJob).Run" env.ctxCanceled ps.length ps 1 0 with h | h
        · left; rw [hres, h]
        · right; left; rw [hres, h]
  · intro r env ps hctx hs
    rw [vault.tokenRevocationRun_ok r env ps hctx hs]
    exact ⟨rfl, rfl, rfl⟩
  · intro r env
    by_cases h0 : env.ctxCanceled 0
    · rw [vault.credRenewalRun_ctx0 r env h0]; right; left; rfl
    · have h0f : env.ctxCanceled 0 = false := by simpa using h0
      cases hs : env.search with
      | error u =>
        cases u
        rw [vault.credRenewalRun_searchErr r env h0f hs]; right; right; left; rfl
      | ok creds =>
        have hres := vault.credRenewalRun_result_ok_path r env creds h0f hs
        rcases vault.runLoop_err_shape vault.CredentialRenewalJob.renewCred vault.credRenewalLog
          "vault.(CredentialRenewalJob).Run" env.ctxCanceled creds.length creds 1 0 with h | h
        · left; rw [hres, h]
        · right; left; rw [hres, h]
  · intro r env creds hctx hs
    rw [vault.credRenewalRun_ok r env creds hctx hs]
    exact ⟨rfl, rfl, rfl⟩
  · intro r env
    by_cases h0 : env.ctxCanceled 0
    · rw [vault.credRevocationRun_ctx0 r env h0]; right; left; rfl
    · have h0f : env.ctxCanceled 0 = false := by simpa using h0
      cases hs : env.search with
      | error u =>
        cases u
        rw [vault.credRevocationRun_searchErr r env h0f hs]; right; right; left; rfl
      | ok creds =>
        have hres := vault.credRevocationRun_result_ok_path r env creds h0f hs
        rcases vault.runLoop_err_shape vault.CredentialRevocationJob.revokeCred vault.credRevocationLog
          "vault.(CredentialRevocationJob).Run" env.ctxCanceled creds.length creds 1 0 with h | h
        · left; rw [hres, h]
        · right; left; rw [hres, h]
  · intro r env creds hctx hs
    rw [vault.credRevocationRun_ok r env creds hctx hs]
    exact ⟨rfl, rfl, rfl⟩

/-- Witness for C4: a clean empty run returns nil with zero processed,
and a one-item run whose item fails still returns nil and logs the item
error. -/
theorem vault.run_error_causes_witness :
    (vault.TokenRenewalJob.Run ⟨false, 0, 0⟩ ⟨fun _ => false, Except.ok []⟩).2.result = none ∧
    (vault.TokenRenewalJob.Run ⟨false, 0, 0⟩ ⟨fun _ => false, Except.ok []⟩).1.numProcessed = 0 ∧
    (vault.TokenRevocationJob.Run ⟨false, 0, 0⟩ ⟨fun _ => false, Except.ok []⟩).2.result = none := by
  have h1 := vault.run_error_causes.1.2 ⟨false, 0, 0⟩ ⟨fun _ => false, Except.ok []⟩ []
    (fun _ => rfl) rfl
  have h2 := vault.run_error_causes.2.1.2 ⟨false, 0, 0⟩ ⟨fun _ => false, Except.ok []⟩ []
    (fun _ => rfl) rfl
  exact ⟨h1.1, h1.2.1, h2.1⟩

/-- C8 counterexample: on a nonempty batch the counters are not reset to
(0, 0): the single reset assignment sets them to (0, batch size).  Here a
one-item batch yields the pair (0, 1). -/
theorem vault.run_counters_reset_total_not_zero :
    (vault.TokenRenewalJob.Run ⟨false, 7, 4⟩
       ⟨fun _ => false, Except.ok [(vault.sampleStore, vault.noTokenEnv)]⟩).2.resetTo =
      some (0, 1) ∧
    (vault.TokenRenewalJob.Run ⟨false, 7, 4⟩
       ⟨fun _ => false, Except.ok [(vault.sampleStore, vault.noTokenEnv)]⟩).2.resetTo ≠
      some (0, 0) := by
  constructor
  · rfl
  · decide

/-- C8 (amended): for every job kind, the counters are reset at the start
of each Run — processed to 0 and total to the batch size — before any
item is processed, and processed is incremented after each item
regardless of outcome, so the snapshots of Status during a clean run are
exactly (1, n), ..., (n, n) and the final Status is (n, n). -/
theorem vault.run_counter_reset_and_increment :
    (∀ (r : vault.TokenRenewalJob) (env : vault.TokenRenewRunEnv) ps,
       (∀ i, env.ctxCanceled i = false) → env.search = Except.ok ps →
       (vault.TokenRenewalJob.Run r env).2.resetTo = some (0, ps.length) ∧
       (vault.TokenRenewalJob.Run r env).2.snapshots =
         vault.snapsFrom 1 ps.length ps.length ∧
       vault.TokenRenewalJob.Status (vault.TokenRenewalJob.Run r env).1 =
         ⟨ps.length, ps.length⟩) ∧
    (∀ (r : vault.TokenRevocationJob) (env : vault.TokenRevokeRunEnv) ps,
       (∀ i, env.ctxCanceled i = false) → env.search = Except.ok ps →
       (vault.TokenRevocationJob.Run r env).2.resetTo = some (0, ps.length) ∧
       (vault.TokenRevocationJob.Run r env).2.snapshots =
         vault.snapsFrom 1 ps.length ps.length ∧
       vault.TokenRevocationJob.Status (vault.TokenRevocationJob.Run r env).1 =
         ⟨ps.length, ps.length⟩) ∧
    (∀ (r : vault.CredentialRenewalJob) (env : vault.CredRenewRunEnv) creds,
       (∀ i, env.ctxCanceled i = false) → env.search = Except.ok creds →
       (vault.CredentialRenewalJob.Run r env).2.resetTo = some (0, creds.length) ∧
       (vault.CredentialRenewalJob.Run r env).2.snapshots =
         vault.snapsFrom 1 creds.length creds.length ∧
       vault.CredentialRenewalJob.Status (vault.CredentialRenewalJob.Run r env).1 =
         ⟨creds.length, creds.length⟩) ∧
    (∀ (r : vault.CredentialRevocationJob) (env : vault.CredRevokeRunEnv) creds,
       (∀ i, env.ctxCanceled i = false) → env.search = Except.ok creds →
       (vault.CredentialRevocationJob.Run r env).2.resetTo = some (0, creds.length) ∧
       (vault.CredentialRevocationJob.Run r env).2.snapshots =
         vault.snapsFrom 1 creds.length creds.length ∧
       vault.CredentialRevocationJob.Status (vault.CredentialRevocationJob.Run r env).1 =
         ⟨creds.length, creds.length⟩) := by
  refine ⟨?_, ?_, ?_, ?_⟩
  · intro r env ps hctx hs
    rw [vault.tokenRenewalRun_ok r env ps hctx hs]
    exact ⟨rfl, rfl, rfl⟩
  · intro r env ps hctx hs
    rw [vault.tokenRevocationRun_ok r env ps hctx hs]
    exact ⟨rfl, rfl, rfl⟩
  · intro r env creds hctx hs
    rw [vault.credRenewalRun_ok r env creds hctx hs]
    exact ⟨rfl, rfl, rfl⟩
  · intro r env creds hctx hs
    rw [vault.credRevocationRun_ok r env creds hctx hs]
    exact ⟨rfl, rfl, rfl⟩

/-- Witness for the amended C8 at a concrete one-item run. -/
theorem vault.run_counter_reset_and_increment_witness :
    (vault.TokenRenewalJob.Run ⟨false, 9, 9⟩
       ⟨fun _ => false, Except.ok [(vault.sampleStore, vault.noTokenEnv)]⟩).2.resetTo =
      some (0, 1) ∧
    (vault.TokenRenewalJob.Run ⟨false, 9, 9⟩
       ⟨fun _ => false, Except.ok [(vault.sampleStore, vault.noTokenEnv)]⟩).2.snapshots =
      vault.snapsFrom 1 1 1 ∧
    vault.TokenRenewalJob.Status
      (vault.TokenRenewalJob.Run ⟨false, 9, 9⟩
        ⟨fun _ => false, Except.ok [(vault.sampleStore, vault.noTokenEnv)]⟩).1 = ⟨1, 1⟩ :=
  vault.run_counter_reset_and_increment.1 ⟨false, 9, 9⟩
    ⟨fun _ => false, Except.ok [(vault.sampleStore, vault.noTokenEnv)]⟩
    [(vault.sampleStore, vault.noTokenEnv)] (fun _ => rfl) rfl

/-- C9: For every job kind, a context already canceled at the pre-query
check makes Run return the error wrapping the cancellation cause without
issuing the batch selection query, touching the counters, processing any
item, issuing any write, or logging anything; and a cancellation observed
before item k of a selected batch stops the run with exactly k items
processed, the first k snapshots, and only the first k items' writes. -/
theorem vault.run_cancellation_semantics :
    (∀ (r : vault.TokenRenewalJob) (env : vault.TokenRenewRunEnv),
       env.ctxCanceled 0 = true →
       vault.TokenRenewalJob.Run r env =
         ({ r with running := false },
          ⟨false, none, [], [], [],
           some (vault.Err.wrapCause vault.Cause.ctxErr "vault.(TokenRenewalJob).Run")⟩)) ∧
    (∀ (r : vault.TokenRenewalJob) (env : vault.TokenRenewRunEnv) ps k,
       env.ctxCanceled 0 = false → env.search = Except.ok ps → k < ps.length →
       (∀ j, j < k → env.ctxCanceled (j + 1) = false) → env.ctxCanceled (k + 1) = true →
       (vault.TokenRenewalJob.Run r env).2.result =
         some (vault.Err.wrapCause vault.Cause.ctxErr "vault.(TokenRenewalJob).Run") ∧
       (vault.TokenRenewalJob.Run r env).1.numProcessed = k ∧
       (vault.TokenRenewalJob.Run r env).2.snapshots = vault.snapsFrom 1 ps.length k ∧
       (vault.TokenRenewalJob.Run r env).2.writes =
         vault.flatOut (vault.itemWrites vault.TokenRenewalJob.renewToken) (ps.take k)) ∧
    (∀ (r : vault.TokenRevocationJob) (env : vault.TokenRevokeRunEnv),
       env.ctxCanceled 0 = true →
       vault.TokenRevocationJob.Run r env =
         ({ r with running := false },
          ⟨false, none, [], [], [],
           some (vault.Err.wrapCause vault.Cause.ctxErr "vault.(TokenRevocationJob).Run")⟩)) ∧
    (∀ (r : vault.TokenRevocationJob) (env : vault.TokenRevokeRunEnv) ps k,
       env.ctxCanceled 0 = false → env.search = Except.ok ps → k < ps.length →
       (∀ j, j < k → env.ctxCanceled (j + 1) = false) → env.ctxCanceled (k + 1) = true →
       (vault.TokenRevocationJob.Run r env).2.result =
         some (vault.Err.wrapCause vault.Cause.ctxErr "vault.(TokenRevocationJob).Run") ∧
       (vault.TokenRevocationJob.Run r env).1.numProcessed = k ∧
       (vault.TokenRevocationJob.Run r env).2.snapshots = vault.snapsFrom 1 ps.length k ∧
       (vault.TokenRevocationJob.Run r env).2.writes =
         vault.flatOut (vault.itemWrites vault.TokenRevocationJob.revokeToken) (ps.take k)) ∧
    (∀ (r : vault.CredentialRenewalJob) (env : vault.CredRenewRunEnv),
       env.ctxCanceled 0 = true →
       vault.CredentialRenewalJob.Run r env =
         ({ r with running := false },
          ⟨false, none, [], [], [],
           some (vault.Err.wrapCause vault.Cause.ctxErr "vault.(CredentialRenewalJob).Run")⟩)) ∧
    (∀ (r : vault.CredentialRenewalJob) (env : vault.CredRenewRunEnv) creds k,
       env.ctxCanceled 0 = false → env.search = Except.ok creds → k < creds.length →
       (∀ j, j < k → env.ctxCanceled (j + 1) = false) → env.ctxCanceled (k + 1) = true →
       (vault.CredentialRenewalJob.Run r env).2.result =
         some (vault.Err.wrapCause vault.Cause.ctxErr "vault.(CredentialRenewalJob).Run") ∧
       (vault.CredentialRenewalJob.Run r env).1.numProcessed = k ∧
       (vault.CredentialRenewalJob.Run r env).2.snapshots = vault.snapsFrom 1 creds.length k ∧
       (vault.CredentialRenewalJob.Run r env).2.writes =
         vault.flatOut (vault.itemWrites vault.CredentialRenewalJob.renewCred) (creds.take k)) ∧
    (∀ (r : vault.CredentialRevocationJob) (env : vault.CredRevokeRunEnv),
       env.ctxCanceled 0 = true →
       vault.CredentialRevocationJob.Run r env =
         ({ r with running := false },
          ⟨false, none, [], [], [],
           some (vault.Err.wrapCause vault.Cause.ctxErr "vault.(CredentialRevocationJob).Run")⟩)) ∧
    (∀ (r : vault.CredentialRevocationJob) (env : vault.CredRevokeRunEnv) creds k,
       env.ctxCanceled 0 = false → env.search = Except.ok creds → k < creds.length →
       (∀ j, j < k → env.ctxCanceled (j + 1) = false) → env.ctxCanceled (k + 1) = true →
       (vault.CredentialRevocationJob.Run r env).2.result =
         some (vault.Err.wrapCause vault.Cause.ctxErr "vault.(CredentialRevocationJob).Run") ∧
       (vault.CredentialRevocationJob.Run r env).1.numProcessed = k ∧
       (vault.CredentialRevocationJob.Run r env).2.snapshots = vault.snapsFrom 1 creds.length k ∧
       (vault.CredentialRevocationJob.Run r env).2.writes =
         vault.flatOut (vault.itemWrites vault.CredentialRevocationJob.revokeCred) (creds.take k)) := by
  refine ⟨?_, ?_, ?_, ?_, ?_, ?_, ?_, ?_⟩
  · intro r env h0
    exact vault.tokenRenewalRun_ctx0 r env h0
  · intro r env ps k h0 hs hk hpre hcan
    rw [vault.tokenRenewalRun_cancelAt r env ps k h0 hs hk hpre hcan]
    exact ⟨rfl, rfl, rfl, rfl⟩
  · intro r env h0
    exact vault.tokenRevocationRun_ctx0 r env h0
  · intro r env ps k h0 hs hk hpre hcan
    rw [vault.tokenRevocationRun_cancelAt r env ps k h0 hs hk hpre hcan]
    exact ⟨rfl, rfl, rfl, rfl⟩
  · intro r env h0
    exact vault.credRenewalRun_ctx0 r env h0
  · intro r env creds k h0 hs hk hpre hcan
    rw [vault.credRenewalRun_cancelAt r env creds k h0 hs hk hpre hcan]
    exact ⟨rfl, rfl, rfl, rfl⟩
  · intro r env h0
    exact vault.credRevocationRun_ctx0 r env h0
  · intro r env creds k h0 hs hk hpre hcan
    rw [vault.credRevocationRun_cancelAt r env creds k h0 hs hk hpre hcan]
    exact ⟨rfl, rfl, rfl, rfl⟩

/-- Witness for C9: a pre-canceled context stops a concrete run before
the query with the counters untouched, and a context canceled before the
second item of a concrete two-item batch stops the run with exactly one
item processed. -/
theorem vault.run_cancellation_semantics_witness :
    vault.TokenRenewalJob.Run ⟨false, 3, 2⟩ ⟨fun _ => true, Except.ok []⟩ =
      (⟨false, 3, 2⟩,
       ⟨false, none, [], [], [],
        some (vault.Err.wrapCause vault.Cause.ctxErr "vault.(TokenRenewalJob).Run")⟩) ∧
    (vault.TokenRenewalJob.Run ⟨false, 0, 0⟩
       ⟨fun i => decide (2 ≤ i),
        Except.ok [(vault.sampleStore, vault.noTokenEnv),
                   (vault.sampleStore, vault.noTokenEnv)]⟩).1.numProcessed = 1 := by
  constructor
  · exact vault.run_cancellation_semantics.1 ⟨false, 3, 2⟩ ⟨fun _ => true, Except.ok []⟩ rfl
  · have h := vault.run_cancellation_semantics.2.1 ⟨false, 0, 0⟩
      ⟨fun i => decide (2 ≤ i),
       Except.ok [(vault.sampleStore, vault.noTokenEnv),
                  (vault.sampleStore, vault.noTokenEnv)]⟩
      [(vault.sampleStore, vault.noTokenEnv), (vault.sampleStore, vault.noTokenEnv)] 1
      rfl rfl (by decide)
      (by
        intro j hj
        have hj0 : j = 0 := Nat.lt_one_iff.mp hj
        subst hj0
        rfl)
      rfl
    exact h.2.1
